import Mathlib

/-!
Verification of the Aeiden-AI in-memory core against its natural-language
specification.  The Python modules `src/models/chat_models.py`,
`src/models/response_models.py`, `src/models/user_models.py` and
`src/utils/rate_limiting.py` are shallowly embedded below: Python `dict`s
become insertion-ordered association lists with CPython update/erase
semantics, `datetime` values become integers counting minutes, and methods
that mutate `self` become functions returning the updated record.
-/

/-!
A `datetime` value is modelled as an `Int` counting minutes since an
arbitrary epoch.  `timedelta(minutes=m)` is the integer `m` and
`timedelta(hours=h)` is `60 * h`; comparison and subtraction of datetimes
are integer comparison and subtraction.
-/

/-- The ISO-8601 rendering `d.isoformat()` of a datetime `d`.  CPython
guarantees `datetime.fromisoformat(d.isoformat()) == d`, so the string is
represented by the datetime it encodes; distinct datetimes render to
distinct strings. -/
structure IsoStr where
  enc : Int
deriving DecidableEq, Repr

/-- `datetime.isoformat`. -/
def isoformat (d : Int) : IsoStr := ⟨d⟩

/-- `datetime.fromisoformat`, on strings produced by `isoformat`. -/
def fromisoformat (s : IsoStr) : Int := s.enc

/-- A Python float value.  None of the embedded operations compute with
float fields — they are only stored and carried through serialization — so
a float is represented opaquely by its decimal literal. -/
structure PyFloat where
  lit : String
deriving DecidableEq, Repr

/-- A Python `dict` with string keys: an insertion-ordered association
list.  CPython semantics: assignment to an existing key updates the value
in place (keeping the key's position), assignment to a fresh key appends
at the end, deletion removes the entry, and iteration follows list
order. -/
abbrev PyDict (α : Type) : Type := List (String × α)

namespace PyDict

/-- `d.get(k)` / `d[k]` lookup: the value at the first entry whose key is
`k`, if any. -/
def get? (d : PyDict α) (k : String) : Option α :=
  match d with
  | [] => none
  | p :: rest => if p.1 = k then some p.2 else get? rest k

/-- `k in d`. -/
def contains (d : PyDict α) (k : String) : Bool :=
  (d.get? k).isSome

/-- `d[k] = v`: update in place if `k` is present, else append. -/
def set (d : PyDict α) (k : String) (v : α) : PyDict α :=
  match d with
  | [] => [(k, v)]
  | p :: rest => if p.1 = k then (k, v) :: rest else p :: set rest k v

/-- `del d[k]` (removes the entry for `k`; no-op when absent, though
CPython would raise KeyError — the sources only delete present keys). -/
def erase (d : PyDict α) (k : String) : PyDict α :=
  match d with
  | [] => []
  | p :: rest => if p.1 = k then rest else p :: erase rest k

/-- The keys of a dict, in insertion order. -/
def keys (d : PyDict α) : List String := d.map Prod.fst

end PyDict

/-- Python list slicing `l[s:]` for an integer start `s`: a negative start
counts from the end of the list (clamped at the front); in particular
`l[-0:]` is `l[0:]`, the whole list. -/
def pySliceFrom (l : List α) (s : Int) : List α :=
  if s < 0 then l.drop (l.length + s).toNat else l.drop s.toNat

/-! ## `src/utils/rate_limiting.py` -/

/-- `RateLimitInfo` dataclass.  Counters are Python ints (`Int`);
timestamps are datetimes (`Int`). -/
structure RateLimitInfo where
  requests_made : Int := 0
  window_start : Int
  last_request : Option Int := none
  is_blocked : Bool := false
  block_until : Option Int := none
deriving DecidableEq, Repr

/-- `RateLimitInfo()` built inside `is_allowed`: `window_start` defaults to
`datetime.now()`, i.e. the current call time. -/
def RateLimitInfo.init (now : Int) : RateLimitInfo :=
  { window_start := now }

/-- `RateLimiter.__init__(max_requests=100, window_minutes=60)`. -/
structure RateLimiter where
  max_requests : Int := 100
  window_minutes : Int := 60
  users : PyDict RateLimitInfo := []
deriving DecidableEq, Repr

namespace RateLimiter

/-- The entry `is_allowed` works on: the existing `RateLimitInfo` for the
key, or the fresh `RateLimitInfo()` it inserts for an unseen key. -/
def fetchInfo (rl : RateLimiter) (user_id : String) (now : Int) : RateLimitInfo :=
  match PyDict.get? rl.users user_id with
  | some info => info
  | none => RateLimitInfo.init now

/-- The `if user_info.is_blocked and user_info.block_until:` check of
`is_allowed`: `none` when the call returns False early (still blocked),
otherwise the (possibly just unblocked) entry.  A datetime is always
truthy, so the condition is `is_blocked ∧ block_until ≠ None`. -/
def unblockCheck (info : RateLimitInfo) (now : Int) : Option RateLimitInfo :=
  match info.is_blocked, info.block_until with
  | true, some b =>
      if now < b then none
      else some { info with is_blocked := false, block_until := none }
  | _, _ => some info

/-- The window-reset step of `is_allowed`: reset the counter and restart
the window once `now - window_start >= timedelta(minutes=window_minutes)`. -/
def windowReset (window_minutes : Int) (info : RateLimitInfo) (now : Int) :
    RateLimitInfo :=
  if now - info.window_start ≥ window_minutes then
    { info with requests_made := 0, window_start := now }
  else info

/-- The entry state right before the `requests_made >= max_requests`
decision in `is_allowed`, when that point is reached (i.e. when the key is
not still blocked). -/
def preDecision (rl : RateLimiter) (user_id : String) (now : Int) :
    Option RateLimitInfo :=
  (unblockCheck (rl.fetchInfo user_id now) now).map
    (fun info => windowReset rl.window_minutes info now)

/-- `RateLimiter.is_allowed(user_id)`, with `datetime.now()` passed
explicitly.  Returns the boolean result together with the updated limiter
(the Python code mutates the `RateLimitInfo` object held in `self.users`
in place; here the updated entry is written back at the same key). -/
def is_allowed (rl : RateLimiter) (user_id : String) (now : Int) :
    Bool × RateLimiter :=
  let info0 := rl.fetchInfo user_id now
  match unblockCheck info0 now with
  | none => (false, { rl with users := PyDict.set rl.users user_id info0 })
  | some info1 =>
    let info2 := windowReset rl.window_minutes info1 now
    if info2.requests_made ≥ rl.max_requests then
      let blocked := { info2 with is_blocked := true,
                                  block_until := some (now + rl.window_minutes) }
      (false, { rl with users := PyDict.set rl.users user_id blocked })
    else
      let counted := { info2 with requests_made := info2.requests_made + 1,
                                  last_request := some now }
      (true, { rl with users := PyDict.set rl.users user_id counted })

/-- `RateLimiter.get_remaining_requests(user_id)`. -/
def get_remaining_requests (rl : RateLimiter) (user_id : String) : Int :=
  match PyDict.get? rl.users user_id with
  | none => rl.max_requests
  | some info => max 0 (rl.max_requests - info.requests_made)

/-- `RateLimiter.get_reset_time(user_id)`: `None` for an unseen key. -/
def get_reset_time (rl : RateLimiter) (user_id : String) : Option Int :=
  match PyDict.get? rl.users user_id with
  | none => none
  | some info => some (info.window_start + rl.window_minutes)

end RateLimiter

/-! ## `src/models/chat_models.py` -/

/-- `MessageRole` enumeration. -/
inductive MessageRole
  | user
  | model
  | system
deriving DecidableEq, Repr

/-- `MessageRole.value`. -/
def MessageRole.value : MessageRole → String
  | .user => "user"
  | .model => "model"
  | .system => "system"

/-- `MessageRole(s)` enum construction; the ValueError raised on an unknown
value is modelled as `none`. -/
def MessageRole.ofValue : String → Option MessageRole
  | "user" => some .user
  | "model" => some .model
  | "system" => some .system
  | _ => none

/-- `MessageStatus` enumeration. -/
inductive MessageStatus
  | pending
  | sent
  | delivered
  | failed
deriving DecidableEq, Repr

/-- `MessageStatus.value`. -/
def MessageStatus.value : MessageStatus → String
  | .pending => "pending"
  | .sent => "sent"
  | .delivered => "delivered"
  | .failed => "failed"

/-- `MessageStatus(s)` enum construction (`none` = ValueError). -/
def MessageStatus.ofValue : String → Option MessageStatus
  | "pending" => some .pending
  | "sent" => some .sent
  | "delivered" => some .delivered
  | "failed" => some .failed
  | _ => none

/-- `ChatMessage` dataclass.  `metadata: Dict[str, Any]` is carried through
every operation untouched; its values are modelled as strings. -/
structure ChatMessage where
  id : String
  role : MessageRole
  content : String
  timestamp : Int
  status : MessageStatus := .pending
  metadata : PyDict String := []
deriving DecidableEq, Repr

/-- The dictionary produced by `ChatMessage.to_dict`: exactly the six keys
below, with the enums replaced by their `.value` strings and the timestamp
by its ISO rendering. -/
structure ChatMessageDict where
  id : String
  role : String
  content : String
  timestamp : IsoStr
  status : String
  metadata : PyDict String
deriving DecidableEq, Repr

/-- `ChatMessage.to_dict`. -/
def ChatMessage.to_dict (m : ChatMessage) : ChatMessageDict :=
  { id := m.id
    role := m.role.value
    content := m.content
    timestamp := isoformat m.timestamp
    status := m.status.value
    metadata := m.metadata }

/-- `ChatMessage.from_dict` (`data.get('metadata', {})` always finds the key
on dictionaries of the shape above; enum construction may raise, modelled as
`none`). -/
def ChatMessage.from_dict (d : ChatMessageDict) : Option ChatMessage :=
  match MessageRole.ofValue d.role, MessageStatus.ofValue d.status with
  | some r, some st =>
      some { id := d.id
             role := r
             content := d.content
             timestamp := fromisoformat d.timestamp
             status := st
             metadata := d.metadata }
  | _, _ => none

/-- `ChatSession` dataclass (`settings` carried opaquely, values as
strings). -/
structure ChatSession where
  session_id : String
  user_id : Option String := none
  messages : List ChatMessage := []
  created_at : Int
  last_activity : Int
  is_active : Bool := true
  settings : PyDict String := []
deriving DecidableEq, Repr

/-- `ChatSession(session_id=..., user_id=...)` as built by `create_session`:
`created_at` and `last_activity` default to `datetime.now()`. -/
def ChatSession.init (session_id : String) (user_id : Option String)
    (now : Int) : ChatSession :=
  { session_id := session_id, user_id := user_id,
    created_at := now, last_activity := now }

/-- `ChatSession.add_message`: append and refresh `last_activity`. -/
def ChatSession.add_message (s : ChatSession) (message : ChatMessage)
    (now : Int) : ChatSession :=
  { s with messages := s.messages ++ [message], last_activity := now }

/-- `ChatHistory` dataclass. -/
structure ChatHistory where
  sessions : PyDict ChatSession := []
  max_sessions : Int := 100
  max_messages_per_session : Int := 1000
deriving DecidableEq, Repr

namespace ChatHistory

/-- The comparison Python's `sorted(..., key=lambda x: x[1].last_activity)`
induces on dictionary entries. -/
def leActivity (a b : String × ChatSession) : Bool :=
  decide (a.2.last_activity ≤ b.2.last_activity)

/-- `ChatHistory._cleanup_old_sessions`: when strictly over the bound,
stably sort the entries by `last_activity` (Python `sorted` is stable;
modelled by the stable `List.mergeSort`) and keep the Python slice
`sorted_sessions[-max_sessions:]`; `dict(sessions_to_keep)` rebuilds the
mapping from those key-distinct pairs in order, i.e. it is that list. -/
def cleanup_old_sessions (h : ChatHistory) : ChatHistory :=
  if (h.sessions.length : Int) > h.max_sessions then
    let sorted_sessions := h.sessions.mergeSort leActivity
    { h with sessions := pySliceFrom sorted_sessions (-h.max_sessions) }
  else h

/-- `ChatHistory.create_session`. -/
def create_session (h : ChatHistory) (session_id : String)
    (user_id : Option String) (now : Int) : ChatSession × ChatHistory :=
  let session := ChatSession.init session_id user_id now
  (session,
    cleanup_old_sessions { h with sessions := PyDict.set h.sessions session_id session })

/-- `ChatHistory.get_session`. -/
def get_session (h : ChatHistory) (session_id : String) : Option ChatSession :=
  PyDict.get? h.sessions session_id

/-- `ChatHistory.get_or_create_session`. -/
def get_or_create_session (h : ChatHistory) (session_id : String)
    (user_id : Option String) (now : Int) : ChatSession × ChatHistory :=
  match h.get_session session_id with
  | some session => (session, h)
  | none => h.create_session session_id user_id now

/-- `ChatHistory.delete_session`. -/
def delete_session (h : ChatHistory) (session_id : String) : Bool × ChatHistory :=
  if (PyDict.get? h.sessions session_id).isSome then
    (true, { h with sessions := PyDict.erase h.sessions session_id })
  else
    (false, h)

/-- `ChatHistory.cleanup_messages`: truncate the stored session (mutated in
place, i.e. updated at its key) to the slice
`messages[-max_messages_per_session:]` when strictly over the bound. -/
def cleanup_messages (h : ChatHistory) (session_id : String) : ChatHistory :=
  match h.get_session session_id with
  | some session =>
      if (session.messages.length : Int) > h.max_messages_per_session then
        let truncated :=
          { session with
            messages := pySliceFrom session.messages (-h.max_messages_per_session) }
        { h with sessions := PyDict.set h.sessions session_id truncated }
      else h
  | none => h

/-- Appending a message to a registered session: `session.add_message(msg)`
on the object stored in the mapping (a no-op when the id is absent, since
there is then no registered session to append to). -/
def add_message_to (h : ChatHistory) (session_id : String)
    (message : ChatMessage) (now : Int) : ChatHistory :=
  match h.get_session session_id with
  | some session =>
      { h with sessions := PyDict.set h.sessions session_id (session.add_message message now) }
  | none => h

end ChatHistory

/-- The mutating `ChatHistory` operations named by the specification. -/
inductive ChatOp
  | create (session_id : String) (user_id : Option String)
  | getOrCreate (session_id : String) (user_id : Option String)
  | delete (session_id : String)
  | addMessage (session_id : String) (message : ChatMessage)
  | cleanupMessages (session_id : String)

/-- One mutating operation, applied at time `now`. -/
def ChatHistory.applyOp (h : ChatHistory) (op : ChatOp) (now : Int) : ChatHistory :=
  match op with
  | .create sid uid => (h.create_session sid uid now).2
  | .getOrCreate sid uid => (h.get_or_create_session sid uid now).2
  | .delete sid => (h.delete_session sid).2
  | .addMessage sid msg => h.add_message_to sid msg now
  | .cleanupMessages sid => h.cleanup_messages sid

/-- The operations with the discipline the amended invariant claim needs:
identical to `applyOp` except that every append is immediately followed by
`cleanup_messages` on the same session. -/
def ChatHistory.applyOpSafe (h : ChatHistory) (op : ChatOp) (now : Int) : ChatHistory :=
  match op with
  | .addMessage sid msg => (h.add_message_to sid msg now).cleanup_messages sid
  | _ => h.applyOp op now

/-- The two bounds the specification states as the `ChatHistory` invariant:
at most `max_sessions` registered sessions, and at most
`max_messages_per_session` messages in each registered session. -/
def ChatHistory.Bounded (h : ChatHistory) : Prop :=
  (h.sessions.length : Int) ≤ h.max_sessions ∧
  ∀ p ∈ h.sessions, ((p.2 : ChatSession).messages.length : Int) ≤ h.max_messages_per_session

/-- Well-formedness of the association-list model of the session dict: a
Python dict cannot hold the same key twice. -/
def ChatHistory.WF (h : ChatHistory) : Prop :=
  (PyDict.keys h.sessions).Nodup

/-! ## `src/models/response_models.py` -/

/-- `ResponseType` enumeration. -/
inductive ResponseType
  | text
  | code
  | markdown
  | html
  | json
  | error
  | system
deriving DecidableEq, Repr

/-- `ResponseType.value`. -/
def ResponseType.value : ResponseType → String
  | .text => "text"
  | .code => "code"
  | .markdown => "markdown"
  | .html => "html"
  | .json => "json"
  | .error => "error"
  | .system => "system"

/-- `ResponseType(s)` (`none` = ValueError). -/
def ResponseType.ofValue : String → Option ResponseType
  | "text" => some .text
  | "code" => some .code
  | "markdown" => some .markdown
  | "html" => some .html
  | "json" => some .json
  | "error" => some .error
  | "system" => some .system
  | _ => none

/-- `ResponseStatus` enumeration (the member whose `.value` is `"partial"`
is named `partialDone` here because its Python name is a Lean keyword). -/
inductive ResponseStatus
  | success
  | partialDone
  | error
  | timeout
  | rate_limited
  | processing
deriving DecidableEq, Repr

/-- `ResponseStatus.value`. -/
def ResponseStatus.value : ResponseStatus → String
  | .success => "success"
  | .partialDone => "partial"
  | .error => "error"
  | .timeout => "timeout"
  | .rate_limited => "rate_limited"
  | .processing => "processing"

/-- `ResponseStatus(s)` (`none` = ValueError). -/
def ResponseStatus.ofValue : String → Option ResponseStatus
  | "success" => some .success
  | "partial" => some .partialDone
  | "error" => some .error
  | "timeout" => some .timeout
  | "rate_limited" => some .rate_limited
  | "processing" => some .processing
  | _ => none

/-- `ResponsePriority` enumeration. -/
inductive ResponsePriority
  | low
  | normal
  | high
  | urgent
deriving DecidableEq, Repr

/-- `ResponsePriority.value`. -/
def ResponsePriority.value : ResponsePriority → String
  | .low => "low"
  | .normal => "normal"
  | .high => "high"
  | .urgent => "urgent"

/-- `ResponsePriority(s)` (`none` = ValueError). -/
def ResponsePriority.ofValue : String → Option ResponsePriority
  | "low" => some .low
  | "normal" => some .normal
  | "high" => some .high
  | "urgent" => some .urgent
  | _ => none

/-- `ResponseMetadata` dataclass.  Python floats are carried through the
serialization untouched and are modelled opaquely (`PyFloat`). -/
structure ResponseMetadata where
  model_name : String := "gemini-1.5-flash"
  model_version : String := "1.0"
  response_time : PyFloat := ⟨"0.0"⟩
  token_count : Int := 0
  temperature : PyFloat := ⟨"0.7"⟩
  max_tokens : Int := 1000
  finish_reason : String := "stop"
  safety_ratings : PyDict String := []
  citations : List String := []
  confidence_score : PyFloat := ⟨"0.0"⟩
deriving DecidableEq, Repr

/-- `ResponseMetadata.to_dict` copies all ten primitive fields
field-for-field, and `ResponseMetadata(**data['metadata'])` reads exactly
those ten keyword arguments back, so the dictionary is represented by the
record itself. -/
def ResponseMetadata.to_dict (m : ResponseMetadata) : ResponseMetadata := m

/-- `ResponseMetadata(**d)` on a dictionary of the shape produced by
`to_dict`. -/
def ResponseMetadata.ofKwargs (d : ResponseMetadata) : ResponseMetadata := d

/-- `AIResponse` dataclass. -/
structure AIResponse where
  response_id : String
  content : String
  response_type : ResponseType := .text
  status : ResponseStatus := .success
  priority : ResponsePriority := .normal
  metadata : ResponseMetadata := {}
  created_at : Int
  user_id : Option String := none
  session_id : Option String := none
  parent_message_id : Option String := none
  suggested_actions : List String := []
  feedback_score : Option Int := none
  is_helpful : Option Bool := none
  error_message : Option String := none
deriving DecidableEq, Repr

/-- The dictionary produced by `AIResponse.to_dict`: all fourteen keys are
always present. -/
structure AIResponseDict where
  response_id : String
  content : String
  response_type : String
  status : String
  priority : String
  metadata : ResponseMetadata
  created_at : IsoStr
  user_id : Option String
  session_id : Option String
  parent_message_id : Option String
  suggested_actions : List String
  feedback_score : Option Int
  is_helpful : Option Bool
  error_message : Option String
deriving DecidableEq, Repr

/-- `AIResponse.to_dict`. -/
def AIResponse.to_dict (r : AIResponse) : AIResponseDict :=
  { response_id := r.response_id
    content := r.content
    response_type := r.response_type.value
    status := r.status.value
    priority := r.priority.value
    metadata := r.metadata.to_dict
    created_at := isoformat r.created_at
    user_id := r.user_id
    session_id := r.session_id
    parent_message_id := r.parent_message_id
    suggested_actions := r.suggested_actions
    feedback_score := r.feedback_score
    is_helpful := r.is_helpful
    error_message := r.error_message }

/-- `AIResponse.from_dict` (enum construction may raise ValueError,
modelled as `none`; the `.get` defaults never fire on dictionaries of the
shape above). -/
def AIResponse.from_dict (d : AIResponseDict) : Option AIResponse :=
  match ResponseType.ofValue d.response_type, ResponseStatus.ofValue d.status,
        ResponsePriority.ofValue d.priority with
  | some ty, some st, some pr =>
      some { response_id := d.response_id
             content := d.content
             response_type := ty
             status := st
             priority := pr
             metadata := ResponseMetadata.ofKwargs d.metadata
             created_at := fromisoformat d.created_at
             user_id := d.user_id
             session_id := d.session_id
             parent_message_id := d.parent_message_id
             suggested_actions := d.suggested_actions
             feedback_score := d.feedback_score
             is_helpful := d.is_helpful
             error_message := d.error_message }
  | _, _, _ => none

/-- `ResponseCache` dataclass. -/
structure ResponseCache where
  cache : PyDict AIResponse := []
  max_size : Int := 1000
  hit_count : Int := 0
  miss_count : Int := 0
deriving DecidableEq, Repr

namespace ResponseCache

/-- `ResponseCache._hash_content`: the cache key is the MD5 hex digest of
`f"{content}:{user_id or 'anonymous'}"`.  The digest step is modelled by the
key string itself — the code relies only on the digest being a
deterministic function of that string.  Python `or`-truthiness: both `None`
and the empty string fall back to `"anonymous"`. -/
def hash_content (content : String) (user_id : Option String) : String :=
  let uid := match user_id with
    | some s => if s = "" then "anonymous" else s
    | none => "anonymous"
  content ++ ":" ++ uid

/-- `ResponseCache.get`: returns the cached response (bumping `hit_count`)
or `None` (bumping `miss_count`). -/
def get (c : ResponseCache) (content : String) (user_id : Option String) :
    Option AIResponse × ResponseCache :=
  let cache_key := hash_content content user_id
  match PyDict.get? c.cache cache_key with
  | some r => (some r, { c with hit_count := c.hit_count + 1 })
  | none => (none, { c with miss_count := c.miss_count + 1 })

/-- `ResponseCache.set`: when `len(self.cache) >= self.max_size`, delete
`next(iter(self.cache))` — the first (oldest-inserted) entry — then store
the new value.  `next` on an empty dict raises StopIteration, modelled as
`none`. -/
def set (c : ResponseCache) (content : String) (response : AIResponse)
    (user_id : Option String) : Option ResponseCache :=
  let cache_key := hash_content content user_id
  if (c.cache.length : Int) ≥ c.max_size then
    match c.cache with
    | [] => none
    | _ :: rest => some { c with cache := PyDict.set rest cache_key response }
  else
    some { c with cache := PyDict.set c.cache cache_key response }

end ResponseCache

/-! ## `src/models/user_models.py` -/

/-- `UserRole` enumeration. -/
inductive UserRole
  | guest
  | registered
  | premium
  | admin
deriving DecidableEq, Repr

/-- `UserRole.value`. -/
def UserRole.value : UserRole → String
  | .guest => "guest"
  | .registered => "registered"
  | .premium => "premium"
  | .admin => "admin"

/-- `UserRole(s)` (`none` = ValueError). -/
def UserRole.ofValue : String → Option UserRole
  | "guest" => some .guest
  | "registered" => some .registered
  | "premium" => some .premium
  | "admin" => some .admin
  | _ => none

/-- `Theme` enumeration. -/
inductive Theme
  | dark
  | light
  | auto
deriving DecidableEq, Repr

/-- `Theme.value`. -/
def Theme.value : Theme → String
  | .dark => "dark"
  | .light => "light"
  | .auto => "auto"

/-- `Theme(s)` (`none` = ValueError). -/
def Theme.ofValue : String → Option Theme
  | "dark" => some .dark
  | "light" => some .light
  | "auto" => some .auto
  | _ => none

/-- `Language` enumeration (constructors named by their `.value` codes;
the type is called `UserLanguage` because Mathlib already declares
`Language`). -/
inductive UserLanguage
  | en
  | es
  | fr
  | de
  | it
  | pt
  | ru
  | zh
  | ja
  | ko
  | ar
  | hi
deriving DecidableEq, Repr

/-- `Language.value`. -/
def UserLanguage.value : UserLanguage → String
  | .en => "en"
  | .es => "es"
  | .fr => "fr"
  | .de => "de"
  | .it => "it"
  | .pt => "pt"
  | .ru => "ru"
  | .zh => "zh"
  | .ja => "ja"
  | .ko => "ko"
  | .ar => "ar"
  | .hi => "hi"

/-- `Language(s)` (`none` = ValueError). -/
def UserLanguage.ofValue : String → Option UserLanguage
  | "en" => some .en
  | "es" => some .es
  | "fr" => some .fr
  | "de" => some .de
  | "it" => some .it
  | "pt" => some .pt
  | "ru" => some .ru
  | "zh" => some .zh
  | "ja" => some .ja
  | "ko" => some .ko
  | "ar" => some .ar
  | "hi" => some .hi
  | _ => none

/-- `UserPreferences` dataclass. -/
structure UserPreferences where
  theme : Theme := .dark
  language : UserLanguage := .en
  notifications : Bool := true
  sound_effects : Bool := false
  auto_scroll : Bool := true
  message_preview : Bool := true
  typing_indicators : Bool := true
  message_timestamps : Bool := true
  compact_mode : Bool := false
  accessibility_mode : Bool := false
deriving DecidableEq, Repr

/-- The dictionary produced by `UserPreferences.to_dict`. -/
structure UserPreferencesDict where
  theme : String
  language : String
  notifications : Bool
  sound_effects : Bool
  auto_scroll : Bool
  message_preview : Bool
  typing_indicators : Bool
  message_timestamps : Bool
  compact_mode : Bool
  accessibility_mode : Bool
deriving DecidableEq, Repr

/-- `UserPreferences.to_dict`. -/
def UserPreferences.to_dict (p : UserPreferences) : UserPreferencesDict :=
  { theme := p.theme.value
    language := p.language.value
    notifications := p.notifications
    sound_effects := p.sound_effects
    auto_scroll := p.auto_scroll
    message_preview := p.message_preview
    typing_indicators := p.typing_indicators
    message_timestamps := p.message_timestamps
    compact_mode := p.compact_mode
    accessibility_mode := p.accessibility_mode }

/-- `UserPreferences.from_dict` (enum construction may raise, modelled as
`none`; the `.get` defaults never fire on dictionaries of the shape
above). -/
def UserPreferences.from_dict (d : UserPreferencesDict) : Option UserPreferences :=
  match Theme.ofValue d.theme, UserLanguage.ofValue d.language with
  | some th, some la =>
      some { theme := th
             language := la
             notifications := d.notifications
             sound_effects := d.sound_effects
             auto_scroll := d.auto_scroll
             message_preview := d.message_preview
             typing_indicators := d.typing_indicators
             message_timestamps := d.message_timestamps
             compact_mode := d.compact_mode
             accessibility_mode := d.accessibility_mode }
  | _, _ => none

/-- The dynamically-typed `UserStats.last_activity` slot.  Live objects hold
a datetime (`dt`), but `UserStats(**data)` in `User.from_dict` stores the
ISO *string* from the dictionary into the same slot (`txt`) — Python never
checks the annotation. -/
inductive StatsActivity
  | dt (d : Int)
  | txt (s : IsoStr)
deriving DecidableEq, Repr

/-- `UserStats` dataclass. -/
structure UserStats where
  total_messages : Int := 0
  total_sessions : Int := 0
  total_time_spent : Int := 0
  favorite_topics : List String := []
  most_active_hours : List Int := []
  average_session_length : PyFloat := ⟨"0.0"⟩
  last_activity : Option StatsActivity := none
deriving DecidableEq, Repr

/-- The dictionary produced by `UserStats.to_dict`: `last_activity` holds
`self.last_activity.isoformat()` or `None`. -/
structure UserStatsDict where
  total_messages : Int
  total_sessions : Int
  total_time_spent : Int
  favorite_topics : List String
  most_active_hours : List Int
  average_session_length : PyFloat
  last_activity : Option IsoStr
deriving DecidableEq, Repr

/-- `UserStats.to_dict`.  Calling `.isoformat()` on a `last_activity` slot
that holds a string (after a deserialization) raises AttributeError,
modelled as `Except.error`. -/
def UserStats.to_dict (s : UserStats) : Except String UserStatsDict :=
  match s.last_activity with
  | none =>
      .ok { total_messages := s.total_messages
            total_sessions := s.total_sessions
            total_time_spent := s.total_time_spent
            favorite_topics := s.favorite_topics
            most_active_hours := s.most_active_hours
            average_session_length := s.average_session_length
            last_activity := none }
  | some (.dt d) =>
      .ok { total_messages := s.total_messages
            total_sessions := s.total_sessions
            total_time_spent := s.total_time_spent
            favorite_topics := s.favorite_topics
            most_active_hours := s.most_active_hours
            average_session_length := s.average_session_length
            last_activity := some (isoformat d) }
  | some (.txt _) =>
      .error "AttributeError: str object has no attribute isoformat"

/-- `UserStats(**data['stats'])` as performed by `User.from_dict`: every
keyword argument is stored as-is, so the `last_activity` slot receives the
raw ISO string (or `None`) from the dictionary. -/
def UserStats.ofKwargs (d : UserStatsDict) : UserStats :=
  { total_messages := d.total_messages
    total_sessions := d.total_sessions
    total_time_spent := d.total_time_spent
    favorite_topics := d.favorite_topics
    most_active_hours := d.most_active_hours
    average_session_length := d.average_session_length
    last_activity := d.last_activity.map (fun s => StatsActivity.txt s) }

/-- `User` dataclass (`metadata` carried opaquely, values as strings). -/
structure User where
  user_id : String
  username : String
  email : Option String := none
  role : UserRole := .guest
  preferences : UserPreferences := {}
  stats : UserStats := {}
  created_at : Int
  last_login : Option Int := none
  is_active : Bool := true
  session_token : Option String := none
  metadata : PyDict String := []
deriving DecidableEq, Repr

/-- `User.login`. -/
def User.login (u : User) (session_token : String) (now : Int) : User :=
  { u with last_login := some now
           session_token := some session_token
           is_active := true }

/-- `User.logout`. -/
def User.logout (u : User) : User :=
  { u with session_token := none }

/-- The dictionary produced by `User.to_dict`. -/
structure UserDict where
  user_id : String
  username : String
  email : Option String
  role : String
  preferences : UserPreferencesDict
  stats : UserStatsDict
  created_at : IsoStr
  last_login : Option IsoStr
  is_active : Bool
  session_token : Option String
  metadata : PyDict String
deriving DecidableEq, Repr

/-- `User.to_dict` (propagates the AttributeError `UserStats.to_dict` can
raise). -/
def User.to_dict (u : User) : Except String UserDict :=
  match u.stats.to_dict with
  | .error e => .error e
  | .ok statsDict =>
      .ok { user_id := u.user_id
            username := u.username
            email := u.email
            role := u.role.value
            preferences := u.preferences.to_dict
            stats := statsDict
            created_at := isoformat u.created_at
            last_login := u.last_login.map isoformat
            is_active := u.is_active
            session_token := u.session_token
            metadata := u.metadata }

/-- `User.from_dict` (enum construction may raise, modelled as `none`; an
ISO string is non-empty and hence truthy, so
`fromisoformat(data['last_login']) if data.get('last_login') else None` is
an `Option.map`). -/
def User.from_dict (d : UserDict) : Option User :=
  match UserRole.ofValue d.role, UserPreferences.from_dict d.preferences with
  | some ro, some prefs =>
      some { user_id := d.user_id
             username := d.username
             email := d.email
             role := ro
             preferences := prefs
             stats := UserStats.ofKwargs d.stats
             created_at := fromisoformat d.created_at
             last_login := d.last_login.map fromisoformat
             is_active := d.is_active
             session_token := d.session_token
             metadata := d.metadata }
  | _, _ => none

/-- The full `User` round trip `from_dict(to_dict(u))`;
`none` when either direction fails. -/
def userRoundTrip (u : User) : Option User :=
  match u.to_dict with
  | .ok d => User.from_dict d
  | .error _ => none

/-- `UserManager` dataclass. -/
structure UserManager where
  users : PyDict User := []
  active_sessions : PyDict String := []
  max_users : Int := 10000
deriving DecidableEq, Repr

namespace UserManager

/-- `UserManager.create_user`: always overwrites. -/
def create_user (m : UserManager) (user_id username : String)
    (email : Option String) (role : UserRole) (now : Int) : User × UserManager :=
  let user : User :=
    { user_id := user_id, username := username, email := email, role := role,
      created_at := now }
  (user, { m with users := PyDict.set m.users user_id user })

/-- `UserManager.get_user`. -/
def get_user (m : UserManager) (user_id : String) : Option User :=
  PyDict.get? m.users user_id

/-- `UserManager.get_user_by_session`: `if user_id:` is Python truthiness,
so an empty-string user id stored in the index is treated as no session. -/
def get_user_by_session (m : UserManager) (session_token : String) : Option User :=
  match PyDict.get? m.active_sessions session_token with
  | some user_id => if user_id = "" then none else m.get_user user_id
  | none => none

/-- `UserManager.authenticate_user`: mutates the stored user object in
place (written back at its key) and registers token → user id. -/
def authenticate_user (m : UserManager) (user_id session_token : String)
    (now : Int) : Bool × UserManager :=
  match m.get_user user_id with
  | some user =>
      if user.is_active then
        (true, { m with
          users := PyDict.set m.users user_id (user.login session_token now)
          active_sessions := PyDict.set m.active_sessions session_token user_id })
      else (false, m)
  | none => (false, m)

/-- `UserManager.logout_user`: `get_user_by_session` inlined — the user
object found through the index is mutated in place (written back at the
index entry's user id key) and the index entry deleted. -/
def logout_user (m : UserManager) (session_token : String) : Bool × UserManager :=
  match PyDict.get? m.active_sessions session_token with
  | some user_id =>
      if user_id = "" then (false, m)
      else
        match PyDict.get? m.users user_id with
        | some user =>
            (true, { m with
              users := PyDict.set m.users user_id user.logout
              active_sessions := PyDict.erase m.active_sessions session_token })
        | none => (false, m)
  | none => (false, m)

/-- `UserManager.cleanup_inactive_sessions`.  Its first statement evaluates
`datetime.now() - timedelta(hours=max_age_hours)`, but line 5 of
`src/models/user_models.py` imports only `datetime` from the `datetime`
module — the name `timedelta` is unbound there, so every call raises
NameError before touching any state. -/
def cleanup_inactive_sessions (_m : UserManager) (_max_age_hours : Int)
    (_now : Int) : Except String UserManager :=
  .error "NameError: name timedelta is not defined"

end UserManager

/-- The `UserManager` operations named by the specification. -/
inductive UserOp
  | create (user_id username : String) (email : Option String) (role : UserRole)
  | auth (user_id session_token : String)
  | getBySession (session_token : String)
  | logout (session_token : String)
  | cleanup (max_age_hours : Int)

/-- One operation, applied at time `now`.  `get_user_by_session` reads no
state; `cleanup_inactive_sessions` raises NameError before any mutation, so
the surviving state in both cases is the input state. -/
def UserManager.applyOp (m : UserManager) (op : UserOp) (now : Int) : UserManager :=
  match op with
  | .create uid uname email role => (m.create_user uid uname email role now).2
  | .auth uid tok => (m.authenticate_user uid tok now).2
  | .getBySession _ => m
  | .logout tok => (m.logout_user tok).2
  | .cleanup _ => m

/-- `UserManager()` with no users and no sessions. -/
def UserManager.initial : UserManager := {}

/-- Run a sequence of timed operations from a starting state. -/
def UserManager.runOps (m : UserManager) (ops : List (UserOp × Int)) : UserManager :=
  ops.foldl (fun acc p => acc.applyOp p.1 p.2) m

/-- The specification's secondary-index invariant: every token in
`active_sessions` references a user whose `session_token` field equals that
token. -/
def UserManager.TokenFieldInv (m : UserManager) : Prop :=
  ∀ tok uid, PyDict.get? m.active_sessions tok = some uid →
    ∃ u, PyDict.get? m.users uid = some u ∧ u.session_token = some tok

/-- The weaker index invariant that does hold: every token in
`active_sessions` references an existing user. -/
def UserManager.IndexRefersToUser (m : UserManager) : Prop :=
  ∀ tok uid, PyDict.get? m.active_sessions tok = some uid →
    (PyDict.get? m.users uid).isSome

/-- A sequence of `is_allowed` calls for one key at the given times:
the list of returned booleans and the final limiter state. -/
def RateLimiter.callSeq (rl : RateLimiter) (k : String) (ts : List Int) :
    List Bool × RateLimiter :=
  ts.foldl (fun acc t =>
    let r := acc.2.is_allowed k t
    (acc.1 ++ [r.1], r.2)) ([], rl)

/-- A sample chat message with the given id and timestamp, used in the
concrete instances below. -/
def mkMsg (i : String) (t : Int) : ChatMessage :=
  { id := i, role := .user, content := "hello", timestamp := t }

/-- A `ChatHistory` with `max_messages_per_session = 0` holding one session
`"s"` that holds one message. -/
def c2history : ChatHistory :=
  { sessions := [("s", { session_id := "s", created_at := 0, last_activity := 0,
                         messages := [mkMsg "m1" 0] })],
    max_messages_per_session := 0 }

/-- `ChatHistory(max_sessions=0)` after one `create_session` — the
mutating operation the C1 session-count counterexample inspects. -/
def c1history0 : ChatHistory :=
  (ChatHistory.create_session { max_sessions := 0 } "s" none 0).2

/-- `ChatHistory(max_messages_per_session=1)` after one `create_session`
and two appends to the registered session `"s"`. -/
def c1history1 : ChatHistory :=
  ChatHistory.add_message_to
    (ChatHistory.add_message_to
      ((ChatHistory.create_session { max_messages_per_session := 1 } "s" none 0).2)
      "s" (mkMsg "m1" 1) 1)
    "s" (mkMsg "m2" 2) 2

/-- A sequence of `create_session` calls on a fresh history with the given
bounds: one call per `(session_id, time)` pair. -/
def ChatHistory.runCreates (maxS maxM : Int) (creates : List (String × Int)) :
    ChatHistory :=
  creates.foldl (fun h p => (h.create_session p.1 none p.2).2)
    { sessions := [], max_sessions := maxS, max_messages_per_session := maxM }

/-- A sample AI response with the given id, used in concrete instances. -/
def sampleResponse (i : String) : AIResponse :=
  { response_id := i, content := "c", created_at := 0 }

/-- The cache state after `set("a", ra)`, `set("b", rb)`, `set("b", rb2)`
on an empty cache with `max_size = 2` (each `set` may in principle raise,
hence the `Option.bind` chain). -/
def c6state : Option ResponseCache :=
  (ResponseCache.set { max_size := 2 } "a" (sampleResponse "ra") none).bind
    (fun c => (ResponseCache.set c "b" (sampleResponse "rb") none).bind
      (fun c => ResponseCache.set c "b" (sampleResponse "rb2") none))

/-- A user whose stats carry a genuine datetime in `last_activity`. -/
def c8user : User :=
  { user_id := "u", username := "n", created_at := 0,
    stats := { last_activity := some (.dt 5) } }

/-- A `UserManager` holding one user whose id is the empty string, with an
authentication performed for it. -/
def c9manager : UserManager :=
  (UserManager.create_user {} "" "nobody" none .guest 0).2

/-- The state reached by `create_user("u")`, `authenticate_user("u","t1")`,
`authenticate_user("u","t2")` from an empty manager. -/
def c4manager : UserManager :=
  (UserManager.authenticate_user
    ((UserManager.authenticate_user
      ((UserManager.create_user {} "u" "name" none .guest 0).2) "u" "t1" 1).2)
    "u" "t2" 2).2

/-- The auxiliary invariant for the reachable-state induction: the token
index has no duplicate keys (Python-dict well-formedness) and every index
entry references an existing user. -/
def UserManager.IndexInv (m : UserManager) : Prop :=
  (PyDict.keys m.active_sessions).Nodup ∧ m.IndexRefersToUser

/-! ## Dictionary lemmas -/

namespace PyDict

theorem get?_set_self (d : PyDict α) (k : String) (v : α) :
    (d.set k v).get? k = some v := by
  induction d with
  | nil => simp [set, get?]
  | cons p rest ih =>
    by_cases h : p.1 = k
    · simp [set, get?, h]
    · simpa [set, get?, h] using ih

theorem get?_set_ne (d : PyDict α) (k k' : String) (v : α) (h : k' ≠ k) :
    (d.set k v).get? k' = d.get? k' := by
  induction d with
  | nil => simp [set, get?, Ne.symm h]
  | cons p rest ih =>
    by_cases hp : p.1 = k
    · subst hp
      simp [set, get?, Ne.symm h]
    · by_cases hp' : p.1 = k'
      · simp [set, get?, hp, hp', h]
      · simpa [set, get?, hp, hp'] using ih

theorem set_eq_append (d : PyDict α) (k : String) (v : α)
    (h : d.get? k = none) : d.set k v = d ++ [(k, v)] := by
  induction d with
  | nil => simp [set]
  | cons p rest ih =>
    by_cases hp : p.1 = k
    · simp [get?, hp] at h
    · simp only [get?, hp, if_false] at h
      simp [set, hp, ih h]

theorem length_set_of_contains (d : PyDict α) (k : String) (v : α)
    (h : (d.get? k).isSome) : (d.set k v).length = d.length := by
  induction d with
  | nil => simp [get?] at h
  | cons p rest ih =>
    by_cases hp : p.1 = k
    · simp [set, hp]
    · simp only [get?, hp, if_false] at h
      simp [set, hp, ih h]

theorem mem_set (d : PyDict α) (k : String) (v : α) (p : String × α)
    (h : p ∈ d.set k v) : p ∈ d ∨ p = (k, v) := by
  induction d with
  | nil => simp [set] at h; simp [h]
  | cons q rest ih =>
    by_cases hq : q.1 = k
    · simp only [set, hq, if_true, List.mem_cons] at h
      rcases h with h | h
      · exact Or.inr h
      · exact Or.inl (List.mem_cons_of_mem _ h)
    · simp only [set, hq, if_false, List.mem_cons] at h
      rcases h with h | h
      · exact Or.inl (by simp [h])
      · rcases ih h with h' | h'
        · exact Or.inl (List.mem_cons_of_mem _ h')
        · exact Or.inr h'

theorem mem_erase (d : PyDict α) (k : String) (p : String × α)
    (h : p ∈ d.erase k) : p ∈ d := by
  induction d with
  | nil => simp [erase] at h
  | cons q rest ih =>
    by_cases hq : q.1 = k
    · simp only [erase, hq, if_true] at h
      exact List.mem_cons_of_mem _ h
    · simp only [erase, hq, if_false, List.mem_cons] at h
      rcases h with h | h
      · simp [h]
      · exact List.mem_cons_of_mem _ (ih h)

theorem length_erase_le (d : PyDict α) (k : String) :
    (d.erase k).length ≤ d.length := by
  induction d with
  | nil => simp [erase]
  | cons q rest ih =>
    by_cases hq : q.1 = k
    · simp only [erase, hq, if_true, List.length_cons]
      omega
    · simp only [erase, hq, if_false, List.length_cons]
      omega

theorem keys_set (d : PyDict α) (k : String) (v : α) :
    (d.set k v).keys = if (d.get? k).isSome then d.keys else d.keys ++ [k] := by
  induction d with
  | nil => simp [set, keys, get?]
  | cons p rest ih =>
    by_cases hp : p.1 = k
    · simp [set, keys, get?, hp]
    · simp only [set, hp, if_false, keys, List.map_cons, get?]
      simp only [keys] at ih
      by_cases hc : (get? rest k).isSome
      · simp [hc] at ih ⊢
        simp [ih]
      · simp [hc] at ih ⊢
        simp [ih]

theorem keys_erase_sublist (d : PyDict α) (k : String) :
    (d.erase k).keys.Sublist d.keys := by
  induction d with
  | nil => simp [erase, keys]
  | cons p rest ih =>
    by_cases hp : p.1 = k
    · simp only [erase, hp, if_true, keys, List.map_cons]
      exact List.sublist_cons_self _ _
    · simp only [erase, hp, if_false, keys, List.map_cons]
      exact ih.cons₂ _

theorem get?_eq_none_iff (d : PyDict α) (k : String) :
    d.get? k = none ↔ k ∉ d.keys := by
  induction d with
  | nil => simp [get?, keys]
  | cons p rest ih =>
    by_cases hp : p.1 = k
    · simp [get?, keys, hp]
    · simp [get?, keys, hp, ih, Ne.symm hp]

theorem nodup_keys_set (d : PyDict α) (k : String) (v : α)
    (h : d.keys.Nodup) : (d.set k v).keys.Nodup := by
  rw [keys_set]
  by_cases hc : (d.get? k).isSome
  · simpa [hc] using h
  · have hk : k ∉ d.keys := by
      rw [← get?_eq_none_iff]
      simpa using hc
    rw [if_neg hc]
    simp only [List.nodup_append, List.nodup_cons, List.not_mem_nil,
      not_false_iff, List.nodup_nil, and_true, true_and]
    exact ⟨h, fun a ha hak => hk ((List.mem_singleton.mp hak) ▸ ha)⟩

theorem nodup_keys_erase (d : PyDict α) (k : String)
    (h : d.keys.Nodup) : (d.erase k).keys.Nodup :=
  (keys_erase_sublist d k).nodup h

theorem get?_erase_self (d : PyDict α) (k : String)
    (h : d.keys.Nodup) : (d.erase k).get? k = none := by
  induction d with
  | nil => simp [erase, get?]
  | cons p rest ih =>
    simp only [keys, List.map_cons, List.nodup_cons] at h
    by_cases hp : p.1 = k
    · simp only [erase, hp, if_true]
      rw [get?_eq_none_iff]
      exact hp ▸ h.1
    · simp only [erase, hp, if_false, get?]
      exact ih (by simpa [keys] using h.2)

theorem get?_erase_ne (d : PyDict α) (k k' : String) (h : k' ≠ k) :
    (d.erase k).get? k' = d.get? k' := by
  induction d with
  | nil => simp [erase]
  | cons p rest ih =>
    by_cases hp : p.1 = k
    · have hp' : p.1 ≠ k' := fun hh => h (hh ▸ hp)
      simp [erase, get?, hp, hp', Ne.symm h]
    · by_cases hp' : p.1 = k'
      · simp [erase, get?, hp, hp', h]
      · simpa [erase, get?, hp, hp'] using ih

end PyDict

/-! ## Slicing lemmas -/

theorem pySliceFrom_neg (l : List α) (k : Int) (hk : 1 ≤ k) :
    pySliceFrom l (-k) = l.drop (l.length - k.toNat) := by
  have hneg : -k < 0 := by omega
  simp only [pySliceFrom, hneg, if_true]
  congr 1
  omega

theorem length_pySliceFrom_neg (l : List α) (k : Int) (h1 : 1 ≤ k)
    (hlen : k ≤ (l.length : Int)) :
    ((pySliceFrom l (-k)).length : Int) = k := by
  rw [pySliceFrom_neg l k (by omega), List.length_drop]
  omega

/-! ## Rate limiter lemmas -/

namespace RateLimiter

theorem isAllowed_fresh (mr wm : Int) (us : PyDict RateLimitInfo)
    (k : String) (now : Int)
    (hfresh : PyDict.get? us k = none) (hpos : 0 < mr) :
    RateLimiter.is_allowed ⟨mr, wm, us⟩ k now =
      (true, ⟨mr, wm, PyDict.set us k
        ({ requests_made := 1, window_start := now, last_request := some now })⟩) := by
  have h1 : RateLimiter.fetchInfo ⟨mr, wm, us⟩ k now = RateLimitInfo.init now := by
    simp [fetchInfo, hfresh]
  have hlt : ¬((0 : Int) ≥ mr) := by omega
  simp only [is_allowed, h1, RateLimitInfo.init, unblockCheck, windowReset]
  by_cases hw : now - now ≥ wm <;>
    simp [hw, hlt]

theorem isAllowed_count (mr wm : Int) (us : PyDict RateLimitInfo)
    (k : String) (now : Int) (info : RateLimitInfo)
    (hget : PyDict.get? us k = some info)
    (hnb : info.is_blocked = false)
    (hw : now - info.window_start < wm)
    (hlt : info.requests_made < mr) :
    RateLimiter.is_allowed ⟨mr, wm, us⟩ k now =
      (true, ⟨mr, wm, PyDict.set us k
        ({ info with requests_made := info.requests_made + 1,
                     last_request := some now })⟩) := by
  obtain ⟨r, ws, lr, ib, bu⟩ := info
  simp only at hnb hw hlt
  subst hnb
  cases bu <;>
    simp [is_allowed, fetchInfo, hget, unblockCheck, windowReset,
      not_le.mpr hw, not_le.mpr hlt]

theorem isAllowed_limit (mr wm : Int) (us : PyDict RateLimitInfo)
    (k : String) (now : Int) (info : RateLimitInfo)
    (hget : PyDict.get? us k = some info)
    (hnb : info.is_blocked = false)
    (hw : now - info.window_start < wm)
    (hge : info.requests_made ≥ mr) :
    RateLimiter.is_allowed ⟨mr, wm, us⟩ k now =
      (false, ⟨mr, wm, PyDict.set us k
        ({ info with is_blocked := true,
                     block_until := some (now + wm) })⟩) := by
  obtain ⟨r, ws, lr, ib, bu⟩ := info
  simp only at hnb hw hge
  subst hnb
  cases bu <;>
    simp [is_allowed, fetchInfo, hget, unblockCheck, windowReset,
      not_le.mpr hw, hge]

theorem isAllowed_still_blocked (mr wm : Int) (us : PyDict RateLimitInfo)
    (k : String) (now : Int) (info : RateLimitInfo) (b : Int)
    (hget : PyDict.get? us k = some info)
    (hb : info.is_blocked = true)
    (hbu : info.block_until = some b)
    (hlt : now < b) :
    (RateLimiter.is_allowed ⟨mr, wm, us⟩ k now).1 = false := by
  obtain ⟨r, ws, lr, ib, bu⟩ := info
  simp only at hb hbu
  subst hb
  subst hbu
  simp [is_allowed, fetchInfo, hget, unblockCheck, hlt]

theorem isAllowed_unblock (mr wm : Int) (us : PyDict RateLimitInfo)
    (k : String) (now : Int) (info : RateLimitInfo) (b : Int)
    (hget : PyDict.get? us k = some info)
    (hb : info.is_blocked = true)
    (hbu : info.block_until = some b)
    (hle : b ≤ now)
    (hw : now - info.window_start ≥ wm)
    (hpos : 0 < mr) :
    RateLimiter.is_allowed ⟨mr, wm, us⟩ k now =
      (true, ⟨mr, wm, PyDict.set us k
        ({ requests_made := 1, window_start := now, last_request := some now })⟩) := by
  obtain ⟨r, ws, lr, ib, bu⟩ := info
  simp only at hb hbu hw
  subst hb
  subst hbu
  have hlt : ¬((0 : Int) ≥ mr) := by omega
  simp [is_allowed, fetchInfo, hget, unblockCheck, windowReset,
    not_lt.mpr hle, hw, hlt]

theorem isAllowed_true_increments (rl : RateLimiter) (uid : String) (now : Int)
    (h : (rl.is_allowed uid now).1 = true) :
    ∃ pre, rl.preDecision uid now = some pre ∧
      PyDict.get? (rl.is_allowed uid now).2.users uid =
        some { pre with requests_made := pre.requests_made + 1,
                        last_request := some now } := by
  rcases hub : unblockCheck (rl.fetchInfo uid now) now with - | info1
  · simp [is_allowed, hub] at h
  · by_cases hge : (windowReset rl.window_minutes info1 now).requests_made ≥ rl.max_requests
    · simp [is_allowed, hub, hge] at h
    · refine ⟨windowReset rl.window_minutes info1 now, ?_, ?_⟩
      · simp [preDecision, hub]
      · simp [is_allowed, hub, hge, PyDict.get?_set_self]

end RateLimiter

/-! ## Claim C3 -/

/-- C3: for a `RateLimiter` with `max_requests = 3` and
`window_minutes = 60` and a fresh key, four consecutive `is_allowed` calls
within the window return true, true, true, false; the fourth call sets the
blocked state with `block_until = now + window_minutes`; every later call
before `block_until` returns false; the first call at or after
`block_until` unblocks the key, resets its counter and window, and is
allowed; and every `is_allowed` call that returns true increments the
key's window counter. -/
theorem c3_rate_limiter_cycle
    (rl : RateLimiter) (k : String) (t1 t2 t3 t4 : Int)
    (hmax : rl.max_requests = 3) (hwin : rl.window_minutes = 60)
    (hfresh : PyDict.get? rl.users k = none)
    (h12 : t1 ≤ t2) (h23 : t2 ≤ t3) (h34 : t3 ≤ t4)
    (hts : t4 - t1 < 60) :
    (rl.callSeq k [t1, t2, t3, t4]).1 = [true, true, true, false] ∧
    PyDict.get? (rl.callSeq k [t1, t2, t3, t4]).2.users k =
      some ({ requests_made := 3, window_start := t1, last_request := some t3,
              is_blocked := true, block_until := some (t4 + 60) }) ∧
    (∀ t5, t4 ≤ t5 → t5 < t4 + 60 →
      ((rl.callSeq k [t1, t2, t3, t4]).2.is_allowed k t5).1 = false) ∧
    (∀ t6, t4 + 60 ≤ t6 →
      (rl.callSeq k [t1, t2, t3, t4]).2.is_allowed k t6 =
        (true, { (rl.callSeq k [t1, t2, t3, t4]).2 with
          users := PyDict.set (rl.callSeq k [t1, t2, t3, t4]).2.users k
            ({ requests_made := 1, window_start := t6, last_request := some t6 }) })) ∧
    (∀ (rl' : RateLimiter) (uid : String) (now : Int),
      (rl'.is_allowed uid now).1 = true →
      ∃ pre, rl'.preDecision uid now = some pre ∧
        PyDict.get? (rl'.is_allowed uid now).2.users uid =
          some ({ pre with requests_made := pre.requests_made + 1,
                           last_request := some now })) := by
  obtain ⟨mr, wm, us⟩ := rl
  simp only at hmax hwin hfresh
  subst hmax
  subst hwin
  have e1 := RateLimiter.isAllowed_fresh 3 60 us k t1 hfresh (by norm_num)
  have e2 := RateLimiter.isAllowed_count 3 60
    (PyDict.set us k ({ requests_made := 1, window_start := t1, last_request := some t1 }))
    k t2 ({ requests_made := 1, window_start := t1, last_request := some t1 })
    (PyDict.get?_set_self ..) rfl
    (show t2 - t1 < (60 : Int) by omega) (show (1 : Int) < 3 by norm_num)
  have e3 := RateLimiter.isAllowed_count 3 60
    (PyDict.set (PyDict.set us k ({ requests_made := 1, window_start := t1, last_request := some t1 })) k
      ({ requests_made := 2, window_start := t1, last_request := some t2 }))
    k t3 ({ requests_made := 2, window_start := t1, last_request := some t2 })
    (PyDict.get?_set_self ..) rfl
    (show t3 - t1 < (60 : Int) by omega) (show (2 : Int) < 3 by norm_num)
  have e4 := RateLimiter.isAllowed_limit 3 60
    (PyDict.set (PyDict.set (PyDict.set us k
        ({ requests_made := 1, window_start := t1, last_request := some t1 })) k
        ({ requests_made := 2, window_start := t1, last_request := some t2 })) k
      ({ requests_made := 3, window_start := t1, last_request := some t3 }))
    k t4 ({ requests_made := 3, window_start := t1, last_request := some t3 })
    (PyDict.get?_set_self ..) rfl
    (show t4 - t1 < (60 : Int) by omega) (show (3 : Int) ≥ 3 by norm_num)
  have hseq : RateLimiter.callSeq ⟨3, 60, us⟩ k [t1, t2, t3, t4] =
      ([true, true, true, false],
        ⟨3, 60, PyDict.set (PyDict.set (PyDict.set (PyDict.set us k
            ({ requests_made := 1, window_start := t1, last_request := some t1 })) k
            ({ requests_made := 2, window_start := t1, last_request := some t2 })) k
            ({ requests_made := 3, window_start := t1, last_request := some t3 })) k
          ({ requests_made := 3, window_start := t1, last_request := some t3,
             is_blocked := true, block_until := some (t4 + 60) })⟩) := by
    simp only [RateLimiter.callSeq, List.foldl, e1]
    norm_num
    rw [e2]
    norm_num
    rw [e3]
    norm_num
    rw [e4]
    norm_num
  refine ⟨by rw [hseq], ?_, ?_, ?_, ?_⟩
  · rw [hseq]
    exact PyDict.get?_set_self ..
  · intro t5 h45 h5b
    rw [hseq]
    exact RateLimiter.isAllowed_still_blocked 3 60 _ k t5 _ (t4 + 60)
      (PyDict.get?_set_self ..) rfl rfl h5b
  · intro t6 h6
    rw [hseq]
    exact RateLimiter.isAllowed_unblock 3 60 _ k t6 _ (t4 + 60)
      (PyDict.get?_set_self ..) rfl rfl h6
      (show t6 - t1 ≥ (60 : Int) by omega) (by norm_num)
  · intro rl' uid now h
    exact RateLimiter.isAllowed_true_increments rl' uid now h

/-- Witness for C3 at the concrete inputs
`max_requests = 3`, `window_minutes = 60`, key `"k"`, call times
0, 1, 2, 3, a still-blocked probe at 10 and an unblocking probe at 63. -/
theorem c3_witness :
    (RateLimiter.callSeq ⟨3, 60, []⟩ "k" [0, 1, 2, 3]).1 =
      [true, true, true, false] ∧
    PyDict.get? (RateLimiter.callSeq ⟨3, 60, []⟩ "k" [0, 1, 2, 3]).2.users "k" =
      some ({ requests_made := 3, window_start := 0, last_request := some 2,
              is_blocked := true, block_until := some 63 }) ∧
    ((RateLimiter.callSeq ⟨3, 60, []⟩ "k" [0, 1, 2, 3]).2.is_allowed "k" 10).1 = false ∧
    ((RateLimiter.callSeq ⟨3, 60, []⟩ "k" [0, 1, 2, 3]).2.is_allowed "k" 63).1 = true := by
  have h := c3_rate_limiter_cycle ⟨3, 60, []⟩ "k" 0 1 2 3 rfl rfl rfl
    (by norm_num) (by norm_num) (by norm_num) (by norm_num)
  refine ⟨h.1, ?_, ?_, ?_⟩
  · rw [h.2.1]
    norm_num
  · exact h.2.2.1 10 (by norm_num) (by norm_num)
  · rw [h.2.2.2.1 63 (by norm_num)]

/-! ## Claim C10 -/

/-- C10 counterexample: on a fresh limiter (`max_requests = 3`,
`window_minutes = 60`), `get_reset_time` for a never-seen key returns
`None` and no timestamp at all, while the claim says it returns
`window_start + window_minutes` of the key's (possibly fresh) window. -/
theorem c10_counterexample :
    RateLimiter.get_reset_time ⟨3, 60, []⟩ "k" = none ∧
    ∀ t : Int, RateLimiter.get_reset_time ⟨3, 60, []⟩ "k" ≠ some t := by
  refine ⟨rfl, ?_⟩
  intro t h
  simp [RateLimiter.get_reset_time, PyDict.get?] at h

/-- C10 (amended): for a key present in `users`, `get_reset_time` returns
`window_start + window_minutes` and `get_remaining_requests` returns
`max(0, max_requests - requests_made)`; for a never-seen key,
`get_reset_time` returns absent (not a timestamp) and
`get_remaining_requests` returns `max_requests` (the fresh-window, zero
requests reading). -/
theorem c10_reset_and_remaining (rl : RateLimiter) (k : String) :
    (PyDict.get? rl.users k = none →
      rl.get_reset_time k = none ∧
      rl.get_remaining_requests k = rl.max_requests) ∧
    (∀ info, PyDict.get? rl.users k = some info →
      rl.get_reset_time k = some (info.window_start + rl.window_minutes) ∧
      rl.get_remaining_requests k = max 0 (rl.max_requests - info.requests_made)) := by
  constructor
  · intro h
    constructor <;> simp [RateLimiter.get_reset_time, RateLimiter.get_remaining_requests, h]
  · intro info h
    constructor <;> simp [RateLimiter.get_reset_time, RateLimiter.get_remaining_requests, h]

/-- Witness for C10 at concrete inputs: a limiter with one entry for
`"k"` (one request made, window started at 0) and the never-seen key
`"fresh"`. -/
theorem c10_witness :
    RateLimiter.get_reset_time
      ⟨3, 60, [("k", { requests_made := 1, window_start := 0 })]⟩ "k" = some 60 ∧
    RateLimiter.get_remaining_requests
      ⟨3, 60, [("k", { requests_made := 1, window_start := 0 })]⟩ "k" = 2 ∧
    RateLimiter.get_reset_time
      ⟨3, 60, [("k", { requests_made := 1, window_start := 0 })]⟩ "fresh" = none ∧
    RateLimiter.get_remaining_requests
      ⟨3, 60, [("k", { requests_made := 1, window_start := 0 })]⟩ "fresh" = 3 := by
  have hsome := (c10_reset_and_remaining
    ⟨3, 60, [("k", { requests_made := 1, window_start := 0 })]⟩ "k").2
    ({ requests_made := 1, window_start := 0 }) (by simp [PyDict.get?])
  have hnone := (c10_reset_and_remaining
    ⟨3, 60, [("k", { requests_made := 1, window_start := 0 })]⟩ "fresh").1
    (by simp [PyDict.get?])
  refine ⟨?_, ?_, hnone.1, hnone.2⟩
  · rw [hsome.1]
    norm_num
  · rw [hsome.2]
    decide

/-! ## Claim C2 -/

/-- C2 counterexample: with `max_messages_per_session = 0` and a registered
session holding `N = 1 > 0` messages, the claim demands that
`cleanup_messages` leave exactly `0` messages, but it leaves the message
untouched: the Python slice `messages[-0:]` is `messages[0:]`, the whole
list, so no truncation happens at bound `0`. -/
theorem c2_counterexample :
    ¬ ((ChatHistory.get_session (ChatHistory.cleanup_messages c2history "s") "s").map
        ChatSession.messages = some []) := by
  decide

/-- C2 (amended): provided `max_messages_per_session ≥ 1`, for a registered
session holding `N` messages with `N >` the bound, `cleanup_messages`
leaves exactly the bound-many most recently appended messages in original
order (the suffix `drop (N - bound)`) and touches no other session; when
`N ≤` the bound, or when the session id is absent, it changes nothing. -/
theorem c2_cleanup_messages
    (h : ChatHistory) (sid : String)
    (hbound : 1 ≤ h.max_messages_per_session) :
    (∀ s, h.get_session sid = some s →
      ((s.messages.length : Int) > h.max_messages_per_session →
        (ChatHistory.get_session (h.cleanup_messages sid) sid).map ChatSession.messages =
          some (s.messages.drop (s.messages.length - h.max_messages_per_session.toNat)) ∧
        (∀ s', ChatHistory.get_session (h.cleanup_messages sid) sid = some s' →
          (s'.messages.length : Int) = h.max_messages_per_session) ∧
        (∀ sid', sid' ≠ sid →
          ChatHistory.get_session (h.cleanup_messages sid) sid' = h.get_session sid')) ∧
      ((s.messages.length : Int) ≤ h.max_messages_per_session →
        h.cleanup_messages sid = h)) ∧
    (h.get_session sid = none → h.cleanup_messages sid = h) := by
  refine ⟨fun s hget => ⟨fun hgt => ?_, fun hle => ?_⟩, fun hnone => ?_⟩
  · have hcl : h.cleanup_messages sid =
        { h with sessions := PyDict.set h.sessions sid { s with messages := pySliceFrom s.messages (-h.max_messages_per_session) } } := by
      simp [ChatHistory.cleanup_messages, hget, hgt]
    have hslice : pySliceFrom s.messages (-h.max_messages_per_session) =
        s.messages.drop (s.messages.length - h.max_messages_per_session.toNat) :=
      pySliceFrom_neg _ _ hbound
    refine ⟨?_, ?_, ?_⟩
    · rw [hcl]
      simp [ChatHistory.get_session, PyDict.get?_set_self, hslice]
    · intro s' hs'
      rw [hcl] at hs'
      simp only [ChatHistory.get_session, PyDict.get?_set_self, Option.some_inj] at hs'
      subst hs'
      simp only [hslice, List.length_drop]
      omega
    · intro sid' hne
      rw [hcl]
      simp only [ChatHistory.get_session]
      exact PyDict.get?_set_ne _ _ _ _ hne
  · simp [ChatHistory.cleanup_messages, hget, not_lt.mpr hle]
  · simp [ChatHistory.cleanup_messages, ChatHistory.get_session] at hnone ⊢
    simp [ChatHistory.cleanup_messages, hnone]

/-- Witness for C2 at concrete inputs: bound 2, a session `"s"` with three
messages (truncated to the last two, in order), a session `"t"` with one
message (unchanged), and the absent id case on an empty history. -/
theorem c2_witness :
    (ChatHistory.get_session
      (ChatHistory.cleanup_messages
        ({ sessions := [("s", { session_id := "s", created_at := 0, last_activity := 3,
                                messages := [mkMsg "m1" 1, mkMsg "m2" 2, mkMsg "m3" 3] })],
           max_messages_per_session := 2 }) "s") "s").map ChatSession.messages =
      some [mkMsg "m2" 2, mkMsg "m3" 3] ∧
    ChatHistory.cleanup_messages
      ({ sessions := [("t", { session_id := "t", created_at := 0, last_activity := 1,
                              messages := [mkMsg "m1" 1] })],
         max_messages_per_session := 2 }) "t" =
      ({ sessions := [("t", { session_id := "t", created_at := 0, last_activity := 1,
                              messages := [mkMsg "m1" 1] })],
         max_messages_per_session := 2 }) ∧
    ChatHistory.cleanup_messages ({ max_messages_per_session := 2 }) "s" =
      ({ max_messages_per_session := 2 }) := by
  refine ⟨?_, ?_, ?_⟩
  · have h := ((c2_cleanup_messages
      ({ sessions := [("s", { session_id := "s", created_at := 0, last_activity := 3,
                              messages := [mkMsg "m1" 1, mkMsg "m2" 2, mkMsg "m3" 3] })],
         max_messages_per_session := 2 }) "s" (by norm_num)).1
      ({ session_id := "s", created_at := 0, last_activity := 3,
         messages := [mkMsg "m1" 1, mkMsg "m2" 2, mkMsg "m3" 3] })
      (by decide)).1 (by decide)
    rw [h.1]
    decide
  · exact ((c2_cleanup_messages _ "t" (by norm_num)).1
      ({ session_id := "t", created_at := 0, last_activity := 1,
         messages := [mkMsg "m1" 1] }) (by decide)).2 (by decide)
  · exact (c2_cleanup_messages ({ max_messages_per_session := 2 }) "s" (by norm_num)).2
      (by decide)

/-! ## Claim C1 -/

/-- C1 counterexample, two parts.  (1) With `max_sessions = 0`, one
`create_session` leaves 1 > 0 sessions: the eviction slice
`sorted_sessions[-0:]` is the whole list, so nothing is evicted.  (2) With
`max_messages_per_session = 1`, appending two messages to a registered
session leaves it with 2 > 1 messages: `ChatSession.add_message` enforces
no bound, so the per-session invariant fails right after the second
append. -/
theorem c1_counterexample :
    ((c1history0.sessions.length : Int) = 1 ∧ c1history0.max_sessions = 0) ∧
    ((ChatHistory.get_session c1history1 "s").map
        (fun s => (s.messages.length : Int)) = some 2 ∧
      c1history1.max_messages_per_session = 1) := by
  refine ⟨⟨?_, rfl⟩, by decide⟩
  simp [c1history0, ChatHistory.create_session, ChatHistory.cleanup_old_sessions,
    pySliceFrom, PyDict.set]



/-! ## Further dictionary lemmas -/

namespace PyDict

theorem set_set (d : PyDict α) (k : String) (v v' : α) :
    (d.set k v).set k v' = d.set k v' := by
  induction d with
  | nil => simp [set]
  | cons p rest ih =>
    by_cases hp : p.1 = k
    · simp [set, hp]
    · simp [set, hp, ih]

theorem mem_set_of_nodup (d : PyDict α) (k : String) (v : α) (p : String × α)
    (hn : (keys d).Nodup) (h : p ∈ d.set k v) :
    (p ∈ d ∧ p.1 ≠ k) ∨ p = (k, v) := by
  induction d with
  | nil => simp [set] at h; simp [h]
  | cons q rest ih =>
    simp only [keys, List.map_cons, List.nodup_cons] at hn
    by_cases hq : q.1 = k
    · simp only [set, hq, if_true, List.mem_cons] at h
      rcases h with h | h
      · exact Or.inr h
      · refine Or.inl ⟨List.mem_cons_of_mem _ h, fun hpk => ?_⟩
        exact (hq ▸ hn.1) (hpk ▸ List.mem_map_of_mem Prod.fst h)
    · simp only [set, hq, if_false, List.mem_cons] at h
      rcases h with h | h
      · exact Or.inl ⟨by simp [h], by simp [h, hq]⟩
      · rcases ih (by simpa [keys] using hn.2) h with ⟨h1, h2⟩ | h1
        · exact Or.inl ⟨List.mem_cons_of_mem _ h1, h2⟩
        · exact Or.inr h1

theorem length_set_le (d : PyDict α) (k : String) (v : α) :
    (d.set k v).length ≤ d.length + 1 := by
  by_cases hc : (d.get? k).isSome
  · rw [length_set_of_contains _ _ _ hc]
    omega
  · rw [set_eq_append _ _ _ (by simpa using hc)]
    simp

theorem snd_eq_of_mem_of_get? (d : PyDict α) (k : String) (v : α)
    (p : String × α) (hn : (keys d).Nodup) (hp : p ∈ d) (hpk : p.1 = k)
    (hg : d.get? k = some v) : p.2 = v := by
  induction d with
  | nil => simp at hp
  | cons q rest ih =>
    simp only [keys, List.map_cons, List.nodup_cons] at hn
    rcases List.mem_cons.mp hp with h | h
    · subst h
      simp only [get?, hpk, if_true] at hg
      exact Option.some_inj.mp hg
    · by_cases hq : q.1 = k
      · exact absurd ((hpk ▸ hq.symm) ▸ List.mem_map_of_mem Prod.fst h)
          (by simpa [hq] using hn.1)
      · simp only [get?, hq, if_false] at hg
        exact ih (by simpa [keys] using hn.2) h hg

end PyDict

/-- `pySliceFrom` always yields a suffix of the list. -/
theorem pySliceFrom_sublist (l : List α) (s : Int) :
    (pySliceFrom l s).Sublist l := by
  unfold pySliceFrom
  split <;> exact List.drop_sublist _ _

/-! ## Chat history lemmas -/

namespace ChatHistory

theorem cleanup_old_preserves (h : ChatHistory)
    (hs : 1 ≤ h.max_sessions)
    (hwf : h.WF)
    (hlen : (h.sessions.length : Int) ≤ h.max_sessions + 1)
    (hmsg : ∀ p ∈ h.sessions,
      ((p.2 : ChatSession).messages.length : Int) ≤ h.max_messages_per_session) :
    h.cleanup_old_sessions.WF ∧ h.cleanup_old_sessions.Bounded := by
  unfold cleanup_old_sessions
  by_cases hgt : (h.sessions.length : Int) > h.max_sessions
  · rw [if_pos hgt]
    have hperm : List.Perm ((h.sessions.mergeSort leActivity).map Prod.fst)
        (h.sessions.map Prod.fst) := (List.mergeSort_perm _ _).map _
    have heq := length_pySliceFrom_neg (h.sessions.mergeSort leActivity)
      h.max_sessions hs (by rw [List.length_mergeSort]; omega)
    refine ⟨?_, ?_, ?_⟩
    · show ((pySliceFrom (h.sessions.mergeSort leActivity) (-h.max_sessions)).map
        Prod.fst).Nodup
      exact ((pySliceFrom_sublist _ _).map _).nodup (hperm.nodup_iff.mpr hwf)
    · show ((pySliceFrom (h.sessions.mergeSort leActivity) (-h.max_sessions)).length : Int) ≤
        h.max_sessions
      omega
    · intro p hp
      have h1 : p ∈ h.sessions.mergeSort leActivity :=
        (pySliceFrom_sublist _ _).subset hp
      exact hmsg p (List.mem_mergeSort.mp h1)
  · rw [if_neg hgt]
    exact ⟨hwf, by omega, hmsg⟩

theorem create_preserves (h : ChatHistory) (sid : String) (uid : Option String)
    (now : Int) (hs : 1 ≤ h.max_sessions) (hm : 0 ≤ h.max_messages_per_session)
    (hwf : h.WF) (hb : h.Bounded) :
    ((h.create_session sid uid now).2).WF ∧ ((h.create_session sid uid now).2).Bounded := by
  refine cleanup_old_preserves _ hs ?_ ?_ ?_
  · exact PyDict.nodup_keys_set _ _ _ hwf
  · show ((PyDict.set h.sessions sid (ChatSession.init sid uid now)).length : Int) ≤
      h.max_sessions + 1
    by_cases hc : (PyDict.get? h.sessions sid).isSome
    · rw [PyDict.length_set_of_contains _ _ _ hc]
      have := hb.1
      omega
    · rw [PyDict.set_eq_append _ _ _ (by simpa using hc)]
      have := hb.1
      simp only [List.length_append, List.length_cons, List.length_nil]
      omega
  · intro p hp
    rcases PyDict.mem_set _ _ _ _ hp with h' | h'
    · exact hb.2 p h'
    · subst h'
      simpa [ChatSession.init] using hm

theorem cleanup_messages_preserves (h : ChatHistory) (sid : String)
    (hm : 1 ≤ h.max_messages_per_session)
    (hwf : h.WF)
    (hcount : (h.sessions.length : Int) ≤ h.max_sessions)
    (hmsg : ∀ p ∈ h.sessions, p.1 ≠ sid →
      ((p.2 : ChatSession).messages.length : Int) ≤ h.max_messages_per_session) :
    (h.cleanup_messages sid).WF ∧ (h.cleanup_messages sid).Bounded := by
  rcases hget : h.get_session sid with - | s
  · simp only [cleanup_messages, hget]
    refine ⟨hwf, hcount, fun p hp => ?_⟩
    by_cases hps : p.1 = sid
    · exact absurd (hps ▸ List.mem_map_of_mem Prod.fst hp)
        ((PyDict.get?_eq_none_iff _ _).mp hget)
    · exact hmsg p hp hps
  · simp only [cleanup_messages, hget]
    have hcontains : (PyDict.get? h.sessions sid).isSome := by
      rw [show PyDict.get? h.sessions sid = some s from hget]
      rfl
    by_cases hgt : (s.messages.length : Int) > h.max_messages_per_session
    · rw [if_pos hgt]
      refine ⟨?_, ?_, ?_⟩
      · show (PyDict.keys (PyDict.set h.sessions sid _)).Nodup
        exact PyDict.nodup_keys_set _ _ _ hwf
      · show ((PyDict.set h.sessions sid _).length : Int) ≤ h.max_sessions
        rw [PyDict.length_set_of_contains _ _ _ hcontains]
        exact hcount
      · intro p hp
        rcases PyDict.mem_set_of_nodup _ _ _ _ hwf hp with ⟨hold, hne⟩ | heq
        · exact hmsg p hold hne
        · rw [heq]
          show ((pySliceFrom s.messages (-h.max_messages_per_session)).length : Int) ≤
            h.max_messages_per_session
          rw [pySliceFrom_neg _ _ hm]
          simp only [List.length_drop]
          omega
    · rw [if_neg hgt]
      refine ⟨hwf, hcount, fun p hp => ?_⟩
      by_cases hps : p.1 = sid
      · rw [PyDict.snd_eq_of_mem_of_get? h.sessions sid s p hwf hp hps hget]
        omega
      · exact hmsg p hp hps

theorem applyOpSafe_preserves (h : ChatHistory) (op : ChatOp) (now : Int)
    (hs : 1 ≤ h.max_sessions) (hm : 1 ≤ h.max_messages_per_session)
    (hwf : h.WF) (hb : h.Bounded) :
    (h.applyOpSafe op now).WF ∧ (h.applyOpSafe op now).Bounded := by
  cases op with
  | create sid uid =>
    exact create_preserves h sid uid now hs (by omega) hwf hb
  | getOrCreate sid uid =>
    show ((h.get_or_create_session sid uid now).2).WF ∧
      ((h.get_or_create_session sid uid now).2).Bounded
    rcases hget : h.get_session sid with - | s
    · simp only [get_or_create_session, hget]
      exact create_preserves h sid uid now hs (by omega) hwf hb
    · simp only [get_or_create_session, hget]
      exact ⟨hwf, hb⟩
  | delete sid =>
    show ((h.delete_session sid).2).WF ∧ ((h.delete_session sid).2).Bounded
    by_cases hc : (PyDict.get? h.sessions sid).isSome
    · simp only [delete_session, hc, if_true]
      refine ⟨PyDict.nodup_keys_erase _ _ hwf, ?_, fun p hp => hb.2 p (PyDict.mem_erase _ _ _ hp)⟩
      show ((PyDict.erase h.sessions sid).length : Int) ≤ h.max_sessions
      have h1 := PyDict.length_erase_le h.sessions sid
      have h2 := hb.1
      omega
    · simp only [delete_session, hc, if_false]
      exact ⟨hwf, hb⟩
  | addMessage sid msg =>
    show ((h.add_message_to sid msg now).cleanup_messages sid).WF ∧
      ((h.add_message_to sid msg now).cleanup_messages sid).Bounded
    rcases hget : h.get_session sid with - | s
    · simp only [add_message_to, hget]
      refine cleanup_messages_preserves h sid hm hwf hb.1 (fun p hp _ => hb.2 p hp)
    · simp only [add_message_to, hget]
      refine cleanup_messages_preserves _ sid hm (PyDict.nodup_keys_set _ _ _ hwf) ?_ ?_
      · show ((PyDict.set h.sessions sid _).length : Int) ≤ h.max_sessions
        rw [PyDict.length_set_of_contains _ _ _ (by rw [show PyDict.get? h.sessions sid = some s from hget]; rfl)]
        exact hb.1
      · intro p hp hne
        rcases PyDict.mem_set_of_nodup _ _ _ _ hwf hp with ⟨hold, -⟩ | heq
        · exact hb.2 p hold
        · exact absurd (by rw [heq]) hne
  | cleanupMessages sid =>
    exact cleanup_messages_preserves h sid hm hwf hb.1 (fun p hp _ => hb.2 p hp)

end ChatHistory

namespace ChatHistory

theorem create_session_2_eq (h : ChatHistory) (sid : String)
    (uid : Option String) (now : Int) :
    (h.create_session sid uid now).2 =
      cleanup_old_sessions
        { h with sessions := PyDict.set h.sessions sid (ChatSession.init sid uid now) } :=
  rfl

theorem create_session_fields (h : ChatHistory) (sid : String)
    (uid : Option String) (now : Int) :
    ((h.create_session sid uid now).2).max_sessions = h.max_sessions ∧
    ((h.create_session sid uid now).2).max_messages_per_session =
      h.max_messages_per_session := by
  rw [create_session_2_eq]
  unfold cleanup_old_sessions
  constructor <;> (split <;> rfl)

theorem runCreates_concat (maxS maxM : Int) (l : List (String × Int))
    (a : String × Int) :
    ChatHistory.runCreates maxS maxM (l ++ [a]) =
      ((ChatHistory.runCreates maxS maxM l).create_session a.1 none a.2).2 := by
  simp only [runCreates]
  rw [List.foldl_concat]

theorem runCreates_fields (maxS maxM : Int) (l : List (String × Int)) :
    (ChatHistory.runCreates maxS maxM l).max_sessions = maxS ∧
    (ChatHistory.runCreates maxS maxM l).max_messages_per_session = maxM := by
  induction l using List.reverseRecOn with
  | nil => exact ⟨rfl, rfl⟩
  | append_singleton l a ih =>
    rw [runCreates_concat]
    have hf := create_session_fields (ChatHistory.runCreates maxS maxM l) a.1 none a.2
    rw [hf.1, hf.2]
    exact ih

theorem runCreates_sessions (maxS maxM : Int) (hs : 1 ≤ maxS)
    (creates : List (String × Int))
    (hids : (creates.map Prod.fst).Nodup)
    (htimes : creates.Pairwise (fun p q => p.2 < q.2)) :
    (ChatHistory.runCreates maxS maxM creates).sessions =
      (creates.drop (creates.length - maxS.toNat)).map
        (fun p => (p.1, ChatSession.init p.1 none p.2)) := by
  have hmaxSN : (maxS.toNat : Int) = maxS := Int.toNat_of_nonneg (by omega)
  induction creates using List.reverseRecOn with
  | nil => simp [runCreates]
  | append_singleton l a ih =>
    have hidsl : (l.map Prod.fst).Nodup := by
      rw [List.map_append] at hids
      exact (List.nodup_append.mp hids).1
    have htimesl : l.Pairwise (fun p q => p.2 < q.2) :=
      (List.pairwise_append.mp htimes).1
    have hfresh : a.1 ∉ l.map Prod.fst := by
      rw [List.map_append] at hids
      intro hmem
      exact (List.nodup_append.mp hids).2.2 hmem (by simp)
    specialize ih hidsl htimesl
    rw [runCreates_concat]
    rcases hr : ChatHistory.runCreates maxS maxM l with ⟨sess, ms, mm⟩
    have hf := runCreates_fields maxS maxM l
    rw [hr] at hf ih
    simp only at hf ih
    rw [hf.1, hf.2]
    subst ih
    have hfresh' : PyDict.get?
        ((l.drop (l.length - maxS.toNat)).map
          (fun p => (p.1, ChatSession.init p.1 none p.2))) a.1 = none := by
      rw [PyDict.get?_eq_none_iff]
      intro hmem
      rcases List.mem_map.mp hmem with ⟨q, hq, hq1⟩
      rcases List.mem_map.mp hq with ⟨p, hp, hp1⟩
      apply hfresh
      subst hp1
      simp only at hq1
      exact hq1 ▸ List.mem_map_of_mem Prod.fst (List.mem_of_mem_drop hp)
    rw [create_session_2_eq]
    have hS' : PyDict.set
        ((l.drop (l.length - maxS.toNat)).map
          (fun p => (p.1, ChatSession.init p.1 none p.2))) a.1
        (ChatSession.init a.1 none a.2) =
        ((l.drop (l.length - maxS.toNat)) ++ [a]).map
          (fun p => (p.1, ChatSession.init p.1 none p.2)) := by
      rw [PyDict.set_eq_append _ a.1 (ChatSession.init a.1 none a.2) hfresh',
        List.map_append]
      rfl
    by_cases hcase : l.length < maxS.toNat
    · -- still under the bound: no eviction
      have hd0 : l.length - maxS.toNat = 0 := by omega
      have hd0' : l.length + 1 - maxS.toNat = 0 := by omega
      show (cleanup_old_sessions _).sessions = _
      unfold cleanup_old_sessions
      rw [if_neg (by
        show ¬ ((PyDict.set _ _ _).length : Int) > maxS
        rw [hS']
        simp only [List.length_map, List.length_append, List.length_drop,
          List.length_cons, List.length_nil]
        omega)]
      show PyDict.set _ _ _ = _
      rw [hS']
      simp only [List.length_append, List.length_cons, List.length_nil, hd0,
        hd0', List.drop_zero]
    · -- at the bound: the oldest entry is evicted
      push_neg at hcase
      have hxlen : (l.drop (l.length - maxS.toNat)).length = maxS.toNat := by
        simp only [List.length_drop]
        omega
      have hcond : ((PyDict.set
          ((l.drop (l.length - maxS.toNat)).map
            (fun p => (p.1, ChatSession.init p.1 none p.2))) a.1
          (ChatSession.init a.1 none a.2)).length : Int) > maxS := by
        rw [hS']
        simp only [List.length_map, List.length_append, List.length_drop,
          List.length_cons, List.length_nil]
        omega
      have hsorted : List.Pairwise (fun x y => leActivity x y = true)
          (((l.drop (l.length - maxS.toNat)) ++ [a]).map
            (fun p => (p.1, ChatSession.init p.1 none p.2))) := by
        rw [List.pairwise_map]
        have hsub : ((l.drop (l.length - maxS.toNat)) ++ [a]).Sublist (l ++ [a]) :=
          (List.drop_sublist _ _).append_right [a]
        have hp1 := htimes.sublist hsub
        exact hp1.imp (fun hlt => by
          simp only [leActivity, ChatSession.init, decide_eq_true_eq]
          exact le_of_lt hlt)
      show (cleanup_old_sessions _).sessions = _
      unfold cleanup_old_sessions
      rw [if_pos hcond]
      show pySliceFrom (List.mergeSort _ leActivity) (-maxS) = _
      rw [hS', List.mergeSort_of_sorted hsorted]
      rw [pySliceFrom_neg _ _ hs]
      simp only [List.length_map, List.length_append, List.length_cons,
        List.length_nil, hxlen]
      have hdrop1 : maxS.toNat + 1 - maxS.toNat = 1 := by omega
      rw [hdrop1]
      rw [← List.map_drop]
      rw [List.drop_append_of_le_length (by omega)]
      rw [List.drop_drop]
      have harith : l.length + 1 - maxS.toNat = l.length - maxS.toNat + 1 := by
        omega
      rw [harith]
      rw [List.drop_append_of_le_length (by omega)]

end ChatHistory

/-- C1 (amended): with `max_sessions ≥ 1` and `max_messages_per_session ≥ 1`
and a well-formed session dict (no duplicate keys — automatic for a Python
dict), every mutating operation preserves both bounds, provided each
message append is immediately followed by `cleanup_messages` on that
session (raw `add_message` enforces no bound); and every sequence of
`create_session` calls with distinct identifiers and strictly increasing
creation times exceeding `max_sessions` leaves exactly the `max_sessions`
sessions with the most recent `last_activity` — the most recently created
suffix, in order. -/
theorem c1_chat_history_invariant :
    (∀ (h : ChatHistory) (op : ChatOp) (now : Int),
      1 ≤ h.max_sessions → 1 ≤ h.max_messages_per_session →
      h.WF → h.Bounded →
      (h.applyOpSafe op now).WF ∧ (h.applyOpSafe op now).Bounded) ∧
    (∀ (maxS maxM : Int) (creates : List (String × Int)),
      1 ≤ maxS →
      (creates.map Prod.fst).Nodup →
      creates.Pairwise (fun p q => p.2 < q.2) →
      (creates.length : Int) > maxS →
      (ChatHistory.runCreates maxS maxM creates).sessions =
        (creates.drop (creates.length - maxS.toNat)).map
          (fun p => (p.1, ChatSession.init p.1 none p.2)) ∧
      ((ChatHistory.runCreates maxS maxM creates).sessions.length : Int) = maxS) := by
  constructor
  · intro h op now hs hm hwf hb
    exact ChatHistory.applyOpSafe_preserves h op now hs hm hwf hb
  · intro maxS maxM creates hs hids htimes hgt
    have hses := ChatHistory.runCreates_sessions maxS maxM hs creates hids htimes
    refine ⟨hses, ?_⟩
    rw [hses]
    simp only [List.length_map, List.length_drop]
    have := Int.toNat_of_nonneg (show (0 : Int) ≤ maxS by omega)
    omega

/-- Witness for C1 at concrete inputs: one `create_session` on an empty
history with both bounds 1 (bounds preserved), and two creates with
distinct ids and increasing times against `max_sessions = 1` (only the
most recent survives). -/
theorem c1_witness :
    (ChatHistory.applyOpSafe { max_sessions := 1, max_messages_per_session := 1 }
      (ChatOp.create "a" none) 0).WF ∧
    (ChatHistory.applyOpSafe { max_sessions := 1, max_messages_per_session := 1 }
      (ChatOp.create "a" none) 0).Bounded ∧
    (ChatHistory.runCreates 1 5 [("a", 0), ("b", 1)]).sessions =
      [("b", ChatSession.init "b" none 1)] := by
  have h1 := c1_chat_history_invariant.1
    ({ max_sessions := 1, max_messages_per_session := 1 }) (ChatOp.create "a" none) 0
    (by norm_num) (by norm_num)
    (by simp [ChatHistory.WF, PyDict.keys])
    (by exact ⟨by norm_num, by simp⟩)
  have h2 := c1_chat_history_invariant.2 1 5 [("a", 0), ("b", 1)]
    (by norm_num) (by decide) (by decide) (by norm_num)
  refine ⟨h1.1, h1.2, ?_⟩
  rw [h2.1]
  decide

/-! ## Claim C6 -/

/-- C6 counterexample: `max_size = 2`; after `set("a", ra)` and
`set("b", rb)` both fingerprints are cached; the third call
`set("b", rb2)` uses a fingerprint that is already present, yet it evicts
the entry for `"a"` (the oldest) and shrinks the cache to one entry,
because the code tests `len(cache) >= max_size` before checking whether
the key is an update. -/
theorem c6_counterexample :
    ((ResponseCache.set { max_size := 2 } "a" (sampleResponse "ra") none).bind
      (fun c => ResponseCache.set c "b" (sampleResponse "rb") none)).map
        (fun c => (PyDict.get? c.cache (ResponseCache.hash_content "a" none),
                   PyDict.get? c.cache (ResponseCache.hash_content "b" none))) =
      some (some (sampleResponse "ra"), some (sampleResponse "rb")) ∧
    c6state.map (fun c => PyDict.get? c.cache (ResponseCache.hash_content "a" none)) =
      some none ∧
    c6state.map (fun c => c.cache.length) = some 1 := by
  refine ⟨?_, ?_, ?_⟩ <;> decide

/-- C6 (amended): for `max_size ≥ 1` and a cache within its bound, `set`
succeeds and the entry count stays within `max_size`; no entry is evicted
when the cache is strictly below `max_size`; and when the cache is at
`max_size`, `set` always deletes the oldest (first-inserted) entry before
inserting — even when the new fingerprint is already present, so an update
at capacity evicts the oldest entry as well. -/
theorem c6_cache_bound (c : ResponseCache) (content : String) (r : AIResponse)
    (uid : Option String)
    (hmax : 1 ≤ c.max_size) (hsize : (c.cache.length : Int) ≤ c.max_size) :
    ∃ c', c.set content r uid = some c' ∧
      (c'.cache.length : Int) ≤ c.max_size ∧
      ((c.cache.length : Int) < c.max_size →
        c'.cache = PyDict.set c.cache (ResponseCache.hash_content content uid) r) ∧
      ((c.cache.length : Int) = c.max_size →
        c'.cache = PyDict.set c.cache.tail (ResponseCache.hash_content content uid) r) := by
  obtain ⟨cache, max_size, hits, misses⟩ := c
  simp only at hmax hsize ⊢
  by_cases hge : (cache.length : Int) ≥ max_size
  · have heq : (cache.length : Int) = max_size := le_antisymm hsize hge
    rcases cache with - | ⟨p, rest⟩
    · exfalso
      simp only [List.length_nil, Nat.cast_zero] at heq
      omega
    · refine ⟨{ cache := PyDict.set rest (ResponseCache.hash_content content uid) r,
                max_size := max_size, hit_count := hits, miss_count := misses }, ?_, ?_, ?_, ?_⟩
      · simp only [ResponseCache.set]
        rw [if_pos hge]
      · have h1 := PyDict.length_set_le rest (ResponseCache.hash_content content uid) r
        simp only [List.length_cons] at heq
        simp only
        omega
      · intro hlt
        exfalso
        simp only [List.length_cons] at heq
        push_cast at heq
        omega
      · intro _
        rfl
  · push_neg at hge
    refine ⟨{ cache := PyDict.set cache (ResponseCache.hash_content content uid) r,
              max_size := max_size, hit_count := hits, miss_count := misses }, ?_, ?_, ?_, ?_⟩
    · simp only [ResponseCache.set]
      rw [if_neg (not_le.mpr hge)]
    · have h1 := PyDict.length_set_le cache (ResponseCache.hash_content content uid) r
      simp only
      omega
    · intro _
      rfl
    · intro heq
      omega

/-- Witness for C6 at concrete inputs: inserting a fresh fingerprint into
a one-entry cache with `max_size = 2` (below capacity: nothing evicted),
and updating the present fingerprint of a full cache with `max_size = 1`
(at capacity: the oldest entry is deleted before the insert). -/
theorem c6_witness :
    ResponseCache.set
      ({ cache := [("a:anonymous", sampleResponse "ra")], max_size := 2 })
      "b" (sampleResponse "rb") none =
      some ({ cache := [("a:anonymous", sampleResponse "ra"),
                        ("b:anonymous", sampleResponse "rb")], max_size := 2 }) ∧
    ResponseCache.set
      ({ cache := [("a:anonymous", sampleResponse "ra")], max_size := 1 })
      "a" (sampleResponse "ra2") none =
      some ({ cache := [("a:anonymous", sampleResponse "ra2")], max_size := 1 }) := by
  constructor
  · obtain ⟨c', hset, -, hbelow, -⟩ := c6_cache_bound
      ({ cache := [("a:anonymous", sampleResponse "ra")], max_size := 2 })
      "b" (sampleResponse "rb") none (by norm_num) (by norm_num)
    rw [hset]
    have hc := hbelow (by norm_num)
    have : c' = { cache := [("a:anonymous", sampleResponse "ra"),
                            ("b:anonymous", sampleResponse "rb")], max_size := 2 } := by
      obtain ⟨cc, mm, hh, ms⟩ := c'
      have h2 : ResponseCache.set
          ({ cache := [("a:anonymous", sampleResponse "ra")], max_size := 2 })
          "b" (sampleResponse "rb") none =
          some ({ cache := [("a:anonymous", sampleResponse "ra"),
                            ("b:anonymous", sampleResponse "rb")], max_size := 2 }) := by
        decide
      rw [h2] at hset
      exact (Option.some_inj.mp hset).symm
    rw [this]
  · obtain ⟨c', hset, -, -, hat⟩ := c6_cache_bound
      ({ cache := [("a:anonymous", sampleResponse "ra")], max_size := 1 })
      "a" (sampleResponse "ra2") none (by norm_num) (by norm_num)
    rw [hset]
    have h2 : ResponseCache.set
        ({ cache := [("a:anonymous", sampleResponse "ra")], max_size := 1 })
        "a" (sampleResponse "ra2") none =
        some ({ cache := [("a:anonymous", sampleResponse "ra2")], max_size := 1 }) := by
      decide
    rw [h2] at hset
    rw [← Option.some_inj.mp hset]

/-! ## Claim C7 -/

/-- C7: a `set(content, response, user_id)` immediately followed by
`get(content, user_id)` returns the cached response, bumps `hit_count` by
one and leaves `miss_count` and the cache contents unchanged; a `get`
whose fingerprint is absent returns `None`, bumps `miss_count` by one and
leaves `hit_count` and the cache contents unchanged. -/
theorem c7_cache_get_hit_miss :
    (∀ (c c' : ResponseCache) (content : String) (r : AIResponse)
        (uid : Option String),
      c.set content r uid = some c' →
      (c'.get content uid).1 = some r ∧
      (c'.get content uid).2.hit_count = c'.hit_count + 1 ∧
      (c'.get content uid).2.miss_count = c'.miss_count ∧
      (c'.get content uid).2.cache = c'.cache) ∧
    (∀ (c : ResponseCache) (content : String) (uid : Option String),
      PyDict.get? c.cache (ResponseCache.hash_content content uid) = none →
      (c.get content uid).1 = none ∧
      (c.get content uid).2.miss_count = c.miss_count + 1 ∧
      (c.get content uid).2.hit_count = c.hit_count ∧
      (c.get content uid).2.cache = c.cache) := by
  constructor
  · intro c c' content r uid hset
    have hkey : PyDict.get? c'.cache (ResponseCache.hash_content content uid) =
        some r := by
      simp only [ResponseCache.set] at hset
      by_cases hge : (c.cache.length : Int) ≥ c.max_size
      · rw [if_pos hge] at hset
        rcases hc : c.cache with - | ⟨p, rest⟩
        · rw [hc] at hset
          simp at hset
        · rw [hc] at hset
          have := Option.some_inj.mp hset
          rw [← this]
          exact PyDict.get?_set_self ..
      · rw [if_neg hge] at hset
        have := Option.some_inj.mp hset
        rw [← this]
        exact PyDict.get?_set_self ..
    refine ⟨?_, ?_, ?_, ?_⟩ <;> simp [ResponseCache.get, hkey]
  · intro c content uid hnone
    refine ⟨?_, ?_, ?_, ?_⟩ <;> simp [ResponseCache.get, hnone]

/-- Witness for C7 at concrete inputs: the cache state after
`set("q", r1)` on an empty cache, hit on `"q"`, and a miss on `"z"`
against the empty cache. -/
theorem c7_witness :
    (ResponseCache.get
      ({ cache := [("q:anonymous", sampleResponse "r1")], max_size := 1000 })
      "q" none).1 = some (sampleResponse "r1") ∧
    (ResponseCache.get
      ({ cache := [("q:anonymous", sampleResponse "r1")], max_size := 1000 })
      "q" none).2.hit_count = 1 ∧
    (ResponseCache.get ({} : ResponseCache) "z" none).1 = none ∧
    (ResponseCache.get ({} : ResponseCache) "z" none).2.miss_count = 1 := by
  have h1 := c7_cache_get_hit_miss.1 ({ max_size := 1000 })
    ({ cache := [("q:anonymous", sampleResponse "r1")], max_size := 1000 })
    "q" (sampleResponse "r1") none (by decide)
  have h2 := c7_cache_get_hit_miss.2 ({} : ResponseCache) "z" none (by decide)
  refine ⟨h1.1, ?_, h2.1, ?_⟩
  · rw [h1.2.1]
    decide
  · rw [h2.2.1]
    decide

/-! ## Claim C8 -/

/-- C8 counterexample: a `User` whose `stats.last_activity` holds a
datetime does not survive the round trip.  `UserStats.to_dict` writes the
ISO string, and `User.from_dict` rebuilds the stats with
`UserStats(**data['stats'])`, which stores that raw string back into the
datetime-typed slot — so the round-tripped user differs from the original
in `stats.last_activity` (string versus datetime). -/
theorem c8_counterexample :
    ¬ (userRoundTrip c8user = some c8user) ∧
    userRoundTrip c8user =
      some { c8user with stats :=
        { c8user.stats with last_activity := some (.txt (isoformat 5)) } } := by
  constructor
  · decide
  · decide

/-- C8 (amended): `from_dict(to_dict(x)) = x` holds for every
`ChatMessage` and every `AIResponse`; for `User` it holds exactly on users
whose `stats.last_activity` is `None` — otherwise `UserStats(**stats)`
turns the datetime into its ISO string and the round trip is not the
identity. -/
theorem c8_round_trip :
    (∀ m : ChatMessage, ChatMessage.from_dict m.to_dict = some m) ∧
    (∀ r : AIResponse, AIResponse.from_dict r.to_dict = some r) ∧
    (∀ u : User, u.stats.last_activity = none → userRoundTrip u = some u) := by
  refine ⟨?_, ?_, ?_⟩
  · intro m
    obtain ⟨i, role, ct, ts, st, md⟩ := m
    cases role <;> cases st <;> rfl
  · intro r
    obtain ⟨ri, ct, ty, st, pr, md, ca, ui, si, pm, sa, fs, ih, em⟩ := r
    cases ty <;> cases st <;> cases pr <;> rfl
  · intro u hla
    obtain ⟨ui, un, em, role, prefs, stats, ca, ll, act, tok, md⟩ := u
    obtain ⟨th, la, n1, n2, n3, n4, n5, n6, n7, n8⟩ := prefs
    obtain ⟨s1, s2, s3, s4, s5, s6, lact⟩ := stats
    simp only at hla
    subst hla
    cases role <;> cases th <;> cases la <;> cases ll <;> rfl

/-- Witness for C8 at concrete inputs: a sample message, a sample
response, and a user whose `stats.last_activity` is `None`. -/
theorem c8_witness :
    ChatMessage.from_dict (ChatMessage.to_dict (mkMsg "m" 3)) = some (mkMsg "m" 3) ∧
    AIResponse.from_dict (AIResponse.to_dict (sampleResponse "r")) =
      some (sampleResponse "r") ∧
    userRoundTrip ({ user_id := "u", username := "n", created_at := 0 }) =
      some ({ user_id := "u", username := "n", created_at := 0 }) :=
  ⟨c8_round_trip.1 (mkMsg "m" 3), c8_round_trip.2.1 (sampleResponse "r"),
    c8_round_trip.2.2 ({ user_id := "u", username := "n", created_at := 0 }) rfl⟩

/-! ## Claim C5 -/

/-- C5 (code bug): `cleanup_inactive_sessions` never completes.  Its first
statement evaluates `datetime.now() - timedelta(hours=max_age_hours)`, but
line 5 of `src/models/user_models.py` imports only `datetime` from the
`datetime` module; `timedelta` is an unbound name there, so every call —
on any state and any `max_age_hours` — raises NameError instead of
removing the stale index entries the claim describes. -/
theorem c5_cleanup_inactive_raises (m : UserManager) (max_age_hours now : Int) :
    m.cleanup_inactive_sessions max_age_hours now =
      Except.error "NameError: name timedelta is not defined" := rfl

/-! ## Claim C9 -/

/-- C9 counterexample: a registered, active user whose `user_id` is the
empty string.  `authenticate_user("", "tok")` returns True and registers
the token, but `get_user_by_session("tok")` returns `None` — the looked-up
id `""` is falsy, so `if user_id:` treats the session as absent — and the
subsequent `logout_user("tok")` returns False instead of True. -/
theorem c9_counterexample :
    (UserManager.authenticate_user c9manager "" "tok" 1).1 = true ∧
    UserManager.get_user_by_session
      (UserManager.authenticate_user c9manager "" "tok" 1).2 "tok" = none ∧
    (UserManager.logout_user
      (UserManager.authenticate_user c9manager "" "tok" 1).2 "tok").1 = false := by
  refine ⟨?_, ?_, ?_⟩ <;> decide

/-- C9 (amended): for a registered user `u1` with `is_active` and a
non-empty `user_id` (Python truthiness makes an empty id unreachable
through the index), and a duplicate-free index, `authenticate_user`
returns true, sets `last_login` and the session token, and registers the
token so `get_user_by_session` returns the logged-in user; the subsequent
`logout_user` returns true, clears the token and makes
`get_user_by_session` return absent.  `authenticate_user` returns false
and leaves the state unchanged when the user is absent or inactive;
`logout_user` returns false for an unknown token. -/
theorem c9_auth_logout :
    (∀ (m : UserManager) (uid tok : String) (now : Int) (u1 : User),
      PyDict.get? m.users uid = some u1 → u1.is_active = true → uid ≠ "" →
      (PyDict.keys m.active_sessions).Nodup →
      (m.authenticate_user uid tok now).1 = true ∧
      PyDict.get? (m.authenticate_user uid tok now).2.users uid =
        some (u1.login tok now) ∧
      UserManager.get_user_by_session (m.authenticate_user uid tok now).2 tok =
        some (u1.login tok now) ∧
      (UserManager.logout_user (m.authenticate_user uid tok now).2 tok).1 = true ∧
      PyDict.get?
        (UserManager.logout_user (m.authenticate_user uid tok now).2 tok).2.users uid =
        some ((u1.login tok now).logout) ∧
      UserManager.get_user_by_session
        (UserManager.logout_user (m.authenticate_user uid tok now).2 tok).2 tok =
        none) ∧
    (∀ (m : UserManager) (uid tok : String) (now : Int),
      PyDict.get? m.users uid = none →
      m.authenticate_user uid tok now = (false, m)) ∧
    (∀ (m : UserManager) (uid tok : String) (now : Int) (u : User),
      PyDict.get? m.users uid = some u → u.is_active = false →
      m.authenticate_user uid tok now = (false, m)) ∧
    (∀ (m : UserManager) (tok : String),
      PyDict.get? m.active_sessions tok = none →
      m.logout_user tok = (false, m)) := by
  refine ⟨?_, ?_, ?_, ?_⟩
  · intro m uid tok now u1 hget hact hne hwf
    have hauth : m.authenticate_user uid tok now =
        (true, { m with
          users := PyDict.set m.users uid (u1.login tok now)
          active_sessions := PyDict.set m.active_sessions tok uid }) := by
      simp [UserManager.authenticate_user, UserManager.get_user, hget, hact]
    rw [hauth]
    have hu : PyDict.get? (PyDict.set m.users uid (u1.login tok now)) uid =
        some (u1.login tok now) := PyDict.get?_set_self ..
    have ha : PyDict.get? (PyDict.set m.active_sessions tok uid) tok = some uid :=
      PyDict.get?_set_self ..
    have hbys : UserManager.get_user_by_session
        ({ m with users := PyDict.set m.users uid (u1.login tok now)
                  active_sessions := PyDict.set m.active_sessions tok uid }) tok =
        some (u1.login tok now) := by
      simp [UserManager.get_user_by_session, UserManager.get_user, ha, hne, hu]
    have hlogout : UserManager.logout_user
        ({ m with users := PyDict.set m.users uid (u1.login tok now)
                  active_sessions := PyDict.set m.active_sessions tok uid }) tok =
        (true, { m with
          users := PyDict.set (PyDict.set m.users uid (u1.login tok now)) uid
            ((u1.login tok now).logout)
          active_sessions := PyDict.erase (PyDict.set m.active_sessions tok uid) tok }) := by
      simp [UserManager.logout_user, ha, hne, hu]
    refine ⟨rfl, hu, hbys, ?_, ?_, ?_⟩
    · rw [hlogout]
    · rw [hlogout]
      exact PyDict.get?_set_self ..
    · rw [hlogout]
      have herased : PyDict.get?
          (PyDict.erase (PyDict.set m.active_sessions tok uid) tok) tok = none :=
        PyDict.get?_erase_self _ _ (PyDict.nodup_keys_set _ _ _ hwf)
      simp [UserManager.get_user_by_session, herased]
  · intro m uid tok now hget
    simp [UserManager.authenticate_user, UserManager.get_user, hget]
  · intro m uid tok now u hget hact
    simp [UserManager.authenticate_user, UserManager.get_user, hget, hact]
  · intro m tok hget
    simp [UserManager.logout_user, hget]

/-- Witness for C9 at concrete inputs: user `"u1"` (active, created at 0),
token `"tok1"`, authentication at time 1; plus the absent-user,
inactive-user and unknown-token failure cases. -/
theorem c9_witness :
    (UserManager.authenticate_user
      ((UserManager.create_user {} "u1" "name" none .guest 0).2) "u1" "tok1" 1).1 =
      true ∧
    UserManager.get_user_by_session
      (UserManager.authenticate_user
        ((UserManager.create_user {} "u1" "name" none .guest 0).2) "u1" "tok1" 1).2
      "tok1" =
      some (User.login
        { user_id := "u1", username := "name", created_at := 0 } "tok1" 1) ∧
    UserManager.get_user_by_session
      (UserManager.logout_user
        (UserManager.authenticate_user
          ((UserManager.create_user {} "u1" "name" none .guest 0).2) "u1" "tok1" 1).2
        "tok1").2 "tok1" = none ∧
    UserManager.authenticate_user ({} : UserManager) "ghost" "tok" 5 =
      (false, ({} : UserManager)) ∧
    UserManager.logout_user ({} : UserManager) "tok" = (false, ({} : UserManager)) := by
  have h := c9_auth_logout.1
    ((UserManager.create_user {} "u1" "name" none .guest 0).2) "u1" "tok1" 1
    ({ user_id := "u1", username := "name", created_at := 0 })
    (by decide) rfl (by decide) (by decide)
  have h2 := c9_auth_logout.2.1 ({} : UserManager) "ghost" "tok" 5 (by decide)
  have h3 := c9_auth_logout.2.2.2 ({} : UserManager) "tok" (by decide)
  exact ⟨h.1, h.2.2.1, h.2.2.2.2.2, h2, h3⟩

/-! ## Claim C4 -/

/-- C4 counterexample: re-authentication, not only logout, breaks the
token-field correspondence.  After `create_user("u")`,
`authenticate_user("u","t1")`, `authenticate_user("u","t2")` — a reachable
state — the index still maps `"t1"` to `"u"`, but the user's
`session_token` field is now `"t2"`. -/
theorem c4_counterexample :
    c4manager = UserManager.runOps UserManager.initial
      [(UserOp.create "u" "name" none .guest, 0),
       (UserOp.auth "u" "t1", 1), (UserOp.auth "u" "t2", 2)] ∧
    ¬ UserManager.TokenFieldInv c4manager := by
  refine ⟨by decide, ?_⟩
  intro hinv
  obtain ⟨usr, hu, htok⟩ := hinv "t1" "u" (by decide)
  have hmap : (PyDict.get? c4manager.users "u").map User.session_token =
      some (some "t1") := by
    rw [hu]
    simp [htok]
  exact absurd hmap (by decide)

namespace UserManager

theorem applyOp_preserves_indexInv (m : UserManager) (op : UserOp) (now : Int)
    (h : m.IndexInv) : (m.applyOp op now).IndexInv := by
  obtain ⟨users, active, maxu⟩ := m
  obtain ⟨hwf, href⟩ := h
  simp only [IndexInv] at hwf href ⊢
  cases op with
  | create uid uname email role =>
    refine ⟨hwf, fun tok uid' hget => ?_⟩
    simp only [applyOp, create_user] at hget ⊢
    by_cases huid : uid' = uid
    · subst huid
      rw [PyDict.get?_set_self]
      rfl
    · rw [PyDict.get?_set_ne _ _ _ _ huid]
      exact href tok uid' hget
  | auth uid tok =>
    rcases hget : PyDict.get? users uid with - | user
    · have hstep : UserManager.applyOp ⟨users, active, maxu⟩ (UserOp.auth uid tok) now =
          ⟨users, active, maxu⟩ := by
        simp [applyOp, authenticate_user, get_user, hget]
      rw [hstep]
      exact ⟨hwf, href⟩
    · by_cases hact : user.is_active
      · have hstep : UserManager.applyOp ⟨users, active, maxu⟩ (UserOp.auth uid tok) now =
            ⟨PyDict.set users uid (user.login tok now), PyDict.set active tok uid, maxu⟩ := by
          simp [applyOp, authenticate_user, get_user, hget, hact]
        rw [hstep]
        refine ⟨PyDict.nodup_keys_set _ _ _ hwf, fun tok' uid' hget' => ?_⟩
        simp only at hget' ⊢
        by_cases htok : tok' = tok
        · subst htok
          rw [PyDict.get?_set_self] at hget'
          obtain rfl : uid = uid' := Option.some_inj.mp hget'
          rw [PyDict.get?_set_self]
          rfl
        · rw [PyDict.get?_set_ne _ _ _ _ htok] at hget'
          by_cases huid : uid' = uid
          · subst huid
            rw [PyDict.get?_set_self]
            rfl
          · rw [PyDict.get?_set_ne _ _ _ _ huid]
            exact href tok' uid' hget'
      · have hstep : UserManager.applyOp ⟨users, active, maxu⟩ (UserOp.auth uid tok) now =
            ⟨users, active, maxu⟩ := by
          simp [applyOp, authenticate_user, get_user, hget, hact]
        rw [hstep]
        exact ⟨hwf, href⟩
  | getBySession tok => exact ⟨hwf, href⟩
  | logout tok =>
    rcases hget : PyDict.get? active tok with - | uid
    · have hstep : UserManager.applyOp ⟨users, active, maxu⟩ (UserOp.logout tok) now =
          ⟨users, active, maxu⟩ := by
        simp [applyOp, logout_user, hget]
      rw [hstep]
      exact ⟨hwf, href⟩
    · by_cases hempty : uid = ""
      · have hstep : UserManager.applyOp ⟨users, active, maxu⟩ (UserOp.logout tok) now =
            ⟨users, active, maxu⟩ := by
          simp [applyOp, logout_user, hget, hempty]
        rw [hstep]
        exact ⟨hwf, href⟩
      · rcases huser : PyDict.get? users uid with - | user
        · have hstep : UserManager.applyOp ⟨users, active, maxu⟩ (UserOp.logout tok) now =
              ⟨users, active, maxu⟩ := by
            simp [applyOp, logout_user, hget, hempty, huser]
          rw [hstep]
          exact ⟨hwf, href⟩
        · have hstep : UserManager.applyOp ⟨users, active, maxu⟩ (UserOp.logout tok) now =
              ⟨PyDict.set users uid user.logout, PyDict.erase active tok, maxu⟩ := by
            simp [applyOp, logout_user, hget, hempty, huser]
          rw [hstep]
          refine ⟨PyDict.nodup_keys_erase _ _ hwf, fun tok' uid' hget' => ?_⟩
          simp only at hget' ⊢
          by_cases htok : tok' = tok
          · subst htok
            rw [PyDict.get?_erase_self _ _ hwf] at hget'
            exact absurd hget' (by simp)
          · rw [PyDict.get?_erase_ne _ _ _ htok] at hget'
            by_cases huid : uid' = uid
            · subst huid
              rw [PyDict.get?_set_self]
              rfl
            · rw [PyDict.get?_set_ne _ _ _ _ huid]
              exact href tok' uid' hget'
  | cleanup hours => exact ⟨hwf, href⟩

theorem runOps_indexInv (ops : List (UserOp × Int)) (m : UserManager)
    (h : m.IndexInv) : (m.runOps ops).IndexInv := by
  induction ops generalizing m with
  | nil => exact h
  | cons p rest ih =>
    exact ih _ (applyOp_preserves_indexInv m p.1 p.2 h)

end UserManager

/-- C4 (amended): in every state reachable from an empty `UserManager`
through `create_user`, `authenticate_user`, `get_user_by_session`,
`logout_user` and `cleanup_inactive_sessions`, every token in the
secondary index references an existing user.  The stronger field
correspondence (`session_token` equal to the indexed token) claimed for
every reachable state is broken not only by logout but also by
re-authenticating a user with a new token, which leaves the old token in
the index while the field moves on. -/
theorem c4_index_invariant (ops : List (UserOp × Int)) :
    (UserManager.runOps UserManager.initial ops).IndexRefersToUser :=
  (UserManager.runOps_indexInv ops UserManager.initial
    ⟨by simp [UserManager.initial, PyDict.keys], fun tok uid h => by
      simp [UserManager.initial, PyDict.get?] at h⟩).2

/-- Witness for C4: the reachable-state theorem instantiated at the
concrete counterexample trace — even there, every index entry still
references an existing user. -/
theorem c4_witness :
    (UserManager.runOps UserManager.initial
      [(UserOp.create "u" "name" none .guest, 0),
       (UserOp.auth "u" "t1", 1), (UserOp.auth "u" "t2", 2)]).IndexRefersToUser :=
  c4_index_invariant
    [(UserOp.create "u" "name" none .guest, 0),
     (UserOp.auth "u" "t1", 1), (UserOp.auth "u" "t2", 2)]
